import Mathlib

/-!
Shallow embedding of the order-creation and delivery-slot assignment service:
`createOrder` (order service), `validateSlotAvailability` (delivery service),
and `notifyUser` / `formatDeliveryTime` (notification service).

Modelling conventions:
* Timestamps are whole hours since the Unix epoch (`Nat`); the JS `Date`
  accessors are modelled by `getDay` / `getHours` in UTC (the evaluation
  timezone), which is exact for the whole-hour slot boundaries the design
  assumes (the epoch fell on a Thursday, day index 4).
* JS numbers are modelled as `Int`.
* External collaborators excluded by the spec (inventory validator, price
  calculator, default slot assigner, success of the notification-row save)
  are inputs gathered in `Env`.
* Persistence: TypeORM repositories obtained directly from the data source
  write to the committed store at once; only writes issued through the query
  runner (`queryRunner.manager.save`, used solely for the slot-capacity
  increment) are buffered, take effect at `commitTransaction`, and are
  discarded by `rollbackTransaction`.  Reads (`findOneBy` / `findOne`),
  including those inside `validateSlotAvailability` and `notifyUser`, use
  their own data-source handle and therefore see the committed store.
-/

/-- Left curly-brace character. -/
def lbrace : Char := '\x7b'

/-- Right curly-brace character. -/
def rbrace : Char := '\x7d'

/-- Boolean test that `pat` begins the string `s` (character-wise). -/
def leadsWith : List Char → List Char → Bool
  | [], _ => true
  | _ :: _, [] => false
  | c :: cs, d :: ds => c == d && leadsWith cs ds

/-- The dollar character, which opens a JS replacement pattern. -/
def dollar : Char := '$'

/-- The backquote character (its replacement pattern names the text before
the match). -/
def bquote : Char := '\x60'

/-- The single-quote character (its replacement pattern names the text after
the match). -/
def squote : Char := '\x27'

/-- ECMAScript `GetSubstitution` for a plain-string search pattern: expands
the replacement patterns of the replacement string — two dollars yield one
dollar, dollar-ampersand the matched text, dollar-backquote the text before
the match, dollar-quote the text after the match.  Any other dollar is
literal, and a string pattern has no capture groups, so digit and named
references stay literal as well. -/
def getSubstitution (matched before after : List Char) : List Char → List Char
  | [] => []
  | c :: rest =>
    if c == dollar then
      match rest with
      | [] => [dollar]
      | d :: r =>
        if d == dollar then dollar :: getSubstitution matched before after r
        else if d == '&' then matched ++ getSubstitution matched before after r
        else if d == bquote then
          before ++ getSubstitution matched before after r
        else if d == squote then
          after ++ getSubstitution matched before after r
        else dollar :: getSubstitution matched before after (d :: r)
    else c :: getSubstitution matched before after rest

/-- The scan of JS `String.prototype.replace` with a plain-string pattern:
walks to the first (leftmost) occurrence of `pat`, accumulating the consumed
prefix in `before`, and splices in the replacement after expanding its
replacement patterns; the input is returned unchanged when there is no
occurrence. -/
def replaceFirstGo (pat repl before : List Char) : List Char → List Char
  | [] => []
  | c :: rest =>
    if leadsWith pat (c :: rest) then
      getSubstitution pat before (List.drop pat.length (c :: rest)) repl ++
        List.drop pat.length (c :: rest)
    else c :: replaceFirstGo pat repl (before ++ [c]) rest

/-- JS `String.prototype.replace` with a plain-string pattern.  (The patterns
used by the source are always the nonempty strings produced by
`placeholder`.) -/
def replaceFirst (s pat repl : String) : String :=
  String.mk (replaceFirstGo pat.data repl.data [] s.data)

/-- Entity `DeliverySlot`: a delivery time window with finite capacity. -/
structure DeliverySlot where
  id : Int
  startTime : Nat
  endTime : Nat
  isActive : Bool
  currentUsage : Int
  maxCapacity : Int
deriving DecidableEq

/-- Entity `Order`. -/
structure Order where
  id : Int
  userId : Int
  addressId : Int
  deliverySlotId : Int
  totalAmount : Int
  status : String
deriving DecidableEq

/-- Entity `OrderItem`. -/
structure OrderItem where
  orderId : Int
  skuId : String
  quantity : Int
  unitPrice : Int
  discount : Int
  subtotal : Int
deriving DecidableEq

/-- Entity `Notification`. -/
structure Notification where
  userId : Int
  orderId : Int
  type : String
  title : String
  content : String
  isRead : Bool
deriving DecidableEq

/-- The committed database state.  `users` holds the ids of existing users
(the only attribute of `User` this core reads); `nextId` models the store
assigning the primary key on `orderRepository.save`. -/
structure DB where
  slots : List DeliverySlot
  users : List Int
  orders : List Order
  orderItems : List OrderItem
  notifications : List Notification
  nextId : Int
deriving DecidableEq

/-- Result record of `validateSlotAvailability`
(`{ isAvailable, slot, message? }`). -/
structure SlotValidation where
  isAvailable : Bool
  slot : Option DeliverySlot
  message : Option String
deriving DecidableEq

/-- src/services/delivery/validateSlotAvailability.ts — the Slot Availability
Checker.  It reads the committed slot store and performs no write; `now` is
the evaluation instant (`new Date()`). -/
def validateSlotAvailability (slots : List DeliverySlot) (slotId : Int)
    (now : Nat) : SlotValidation :=
  match slots.find? (fun s => s.id == slotId) with
  | none =>
    { isAvailable := false, slot := none,
      message := some ("Delivery slot with ID " ++ toString slotId ++ " not found") }
  | some slot =>
    if !slot.isActive then
      { isAvailable := false, slot := some slot,
        message := some "Selected delivery slot is inactive" }
    else if slot.maxCapacity ≤ slot.currentUsage then
      { isAvailable := false, slot := some slot,
        message := some ("Selected delivery slot is full (" ++
          toString slot.currentUsage ++ "/" ++ toString slot.maxCapacity ++ ")") }
    else if slot.startTime ≤ now then
      { isAvailable := false, slot := some slot,
        message := some "Selected delivery slot has already passed" }
    else
      { isAvailable := true, slot := some slot, message := none }

/-- JS `Date.prototype.getDay` for a whole-hour UTC timestamp. -/
def getDay (t : Nat) : Nat := (t / 24 + 4) % 7

/-- JS `Date.prototype.getHours` for a whole-hour UTC timestamp. -/
def getHours (t : Nat) : Nat := t % 24

/-- The `dayNames` array of `formatDeliveryTime`. -/
def dayNames : List String :=
  ["Sunday", "Monday", "Tuesday", "Wednesday", "Thursday", "Friday", "Saturday"]

/-- The inner `formatTime` helper of `formatDeliveryTime`
(e.g. `2:00 PM`; minutes are hard-coded to `:00`). -/
def formatTime (t : Nat) : String :=
  let hours := getHours t
  let ampm := if 12 ≤ hours then "PM" else "AM"
  let hours12 := hours % 12
  let hoursShown := if hours12 == 0 then 12 else hours12
  toString hoursShown ++ ":00 " ++ ampm

/-- Values of the untyped `additionalData` context bag (`Record<string, any>`).
Strings and numbers are the scalars the interpolation step substitutes; the
slot-window object sent by `createOrder` is `slotObj`; other objects, arrays,
booleans and null are carried only for their truthiness/skipping behaviour. -/
inductive JVal where
  | str (s : String)
  | num (n : Int)
  | bool (b : Bool)
  | null
  | slotObj (id : Int) (startTime endTime : Nat)
  | obj
  | arr
deriving DecidableEq

/-- JS truthiness of a `JVal`. -/
def jsTruthy : JVal → Bool
  | .str s => !(s == "")
  | .num n => !(n == 0)
  | .bool b => b
  | .null => false
  | .slotObj _ _ _ => true
  | .obj => true
  | .arr => true

/-- Scalar test plus JS `value.toString()`: `some` exactly for the values of
`typeof` string or number, carrying the literal string form. -/
def toDisplayString : JVal → Option String
  | .str s => some s
  | .num n => some (toString n)
  | _ => none

/-- A registered notification template (`{ title, template }`). -/
structure NotificationTemplate where
  title : String
  template : String
deriving DecidableEq

/-- The `NOTIFICATION_TEMPLATES` record. -/
def NOTIFICATION_TEMPLATES : List (String × NotificationTemplate) :=
  [("order_created",
    { title := "Order Confirmation",
      template := "Your order #{orderId} has been received and is being processed. {deliveryInfo}" }),
   ("order_confirmed",
    { title := "Order Confirmed",
      template := "Good news! Your order #{orderId} has been confirmed. {deliveryInfo}" }),
   ("order_shipped",
    { title := "Order Shipped",
      template := "Your order #{orderId} is on its way to you! {deliveryInfo}" }),
   ("order_delivered",
    { title := "Order Delivered",
      template := "Your order #{orderId} has been delivered. Enjoy!" }),
   ("order_cancelled",
    { title := "Order Cancelled",
      template := "Your order #{orderId} has been cancelled. {reason}" }),
   ("order_refunded",
    { title := "Order Refunded",
      template := "Your refund for order #{orderId} has been processed. {reason}" })]

/-- The `switch (method)` of `formatDeliveryTime`: method-specific phrase
around the rendered time slot (default branch covers `auto_assigned` and any
other method value). -/
def methodPhrase (mv : JVal) (timeSlot : String) : String :=
  if mv == JVal.str "user_selected" then
    "Your selected delivery time: " ++ timeSlot
  else if mv == JVal.str "fallback" then
    "Your preferred time slot was unavailable, so we assigned the next available slot: " ++ timeSlot
  else
    "Scheduled for " ++ timeSlot

/-- Rendered window `<WeekdayName> <h>:00 <AM|PM> - <h>:00 <AM|PM>` built by
`formatDeliveryTime` from a slot's start and end times. -/
def renderWindow (startTime endTime : Nat) : String :=
  dayNames.getD (getDay startTime) "" ++ " " ++
    formatTime startTime ++ " - " ++ formatTime endTime

/-- src/unnamed/part_001 `formatDeliveryTime`: renders the delivery phrase
from the context bag when it carries a (truthy) `deliverySlot` object and a
(truthy) `slotAssignmentMethod`, and otherwise falls back to looking up the
order's persisted slot in the committed store.  The slot-bearing branch is
modelled only for genuine slot-window objects; a truthy non-window
`deliverySlot` value (which in JS would render an Invalid-Date artefact) is
outside the model and routed to the database branch. -/
def formatDeliveryTime (db : DB) (orderId : Int)
    (additionalData : List (String × JVal)) : String :=
  let dv := (additionalData.lookup "deliverySlot").getD JVal.null
  let mv := (additionalData.lookup "slotAssignmentMethod").getD JVal.null
  match dv, jsTruthy dv && jsTruthy mv with
  | JVal.slotObj _ s e, true => methodPhrase mv (renderWindow s e)
  | _, _ =>
    match db.orders.find? (fun o => o.id == orderId) with
    | none => "Delivery details will be provided soon."
    | some o =>
      match db.slots.find? (fun s => s.id == o.deliverySlotId) with
      | none => "Delivery details will be provided soon."
      | some slot =>
        "Scheduled for " ++ renderWindow slot.startTime slot.endTime

/-- The placeholder string `[lbrace]key[rbrace]` built by the interpolation
loop. -/
def placeholder (k : String) : String :=
  String.mk (lbrace :: (k.data ++ [rbrace]))

/-- One iteration of the interpolation loop of `notifyUser`: scalar values
(string or number) are substituted for the first occurrence of their
placeholder (`(placeholder kv.1).data`, written out structurally); every
other value is skipped. -/
def interpolateStep (content : List Char) (kv : String × JVal) : List Char :=
  match toDisplayString kv.2 with
  | some v =>
    replaceFirstGo (lbrace :: (kv.1.data ++ [rbrace])) v.data [] content
  | none => content

/-- The placeholder-replacement loop of `notifyUser` over the entries of
`messageData`, in order. -/
def interpolateL (content : List Char) (entries : List (String × JVal)) :
    List Char :=
  entries.foldl interpolateStep content

/-- String-level interpolation of a template. -/
def interpolate (template : String) (entries : List (String × JVal)) : String :=
  String.mk (interpolateL template.data entries)

/-- JS object literal `[lbrace] orderId, deliveryInfo, ...additionalData [rbrace]`:
base keys keep their position but are overridden by a spread entry of the same
key; spread entries with fresh keys follow in order.  (`additionalData` comes
from `Object.entries` of a JS object, so its keys are pairwise distinct.) -/
def jsMerge (base extra : List (String × JVal)) : List (String × JVal) :=
  base.map (fun kv => (kv.1, (extra.lookup kv.1).getD kv.2)) ++
    extra.filter (fun kv => (base.lookup kv.1).isNone)

/-- src/unnamed/part_001 `notifyUser`: template lookup, delivery-info
rendering, placeholder interpolation, and persistence of the Notification
row.  `saveOk` models whether `notificationRepository.save` succeeds (the
notification repository writes directly to the committed store, not through
the order transaction).  The pub/sub publish is fire-and-forget and out of
scope. -/
def notifyUser (db : DB) (saveOk : Bool) (orderId : Int) (type : String)
    (userId : Int) (additionalData : List (String × JVal)) :
    Except String (Notification × DB) :=
  match NOTIFICATION_TEMPLATES.lookup type with
  | none =>
    Except.error
      ("Notification template for type \x27" ++ type ++ "\x27 not found")
  | some tpl =>
    let deliveryInfo := formatDeliveryTime db orderId additionalData
    let messageData :=
      jsMerge [("orderId", JVal.num orderId), ("deliveryInfo", JVal.str deliveryInfo)]
        additionalData
    let content := interpolate tpl.template messageData
    if saveOk then
      let notification : Notification :=
        { userId := userId, orderId := orderId, type := type,
          title := tpl.title, content := content, isRead := false }
      Except.ok (notification,
        { db with notifications := db.notifications ++ [notification] })
    else
      Except.error "Notification persistence failed"

/-- One requested line item (`IOrderItemInput`). -/
structure IOrderItemInput where
  skuId : String
  qty : Int
deriving DecidableEq

/-- The order-creation request (`IOrderInput`). -/
structure IOrderInput where
  userId : Int
  addressId : Int
  items : List IOrderItemInput
  preferredSlotId : Option Int
deriving DecidableEq

/-- Behaviour of the external collaborators for one `createOrder` call:
`validateInventory`'s verdict, `calculatePrice`'s breakdown,
`assignDefaultSlot`'s choice, whether the notification-row save succeeds, and
the evaluation instant. -/
structure Env where
  inventoryValid : Bool
  inventoryErrors : List String
  totalAmount : Int
  itemPrices : String → Option Int
  itemDiscounts : String → Option Int
  assignDefaultSlot : Option DeliverySlot
  notifSaveOk : Bool
  now : Nat

/-- JS truthiness of `orderInput.preferredSlotId` (absent, or the falsy id 0,
both take the no-preference branch). -/
def jsTruthyId : Option Int → Bool
  | none => false
  | some v => !(v == 0)

/-- JS `map[key] || 0`: the price/discount fallback of step 6 (an absent
entry yields 0; a stored 0 also yields 0, which coincides). -/
def jsOr0 : Option Int → Int
  | none => 0
  | some n => n

/-- Lines 64-81 of `createOrder`: resolve a (truthy) preferred slot id.  When
the Availability Checker reports available, the in-memory entity's
`currentUsage` is incremented and saved through the query runner (returned
here as the buffered `pending` write); otherwise the Default Slot Assigner is
delegated to with method `fallback`.  Returns
`(deliverySlot, slotAssignmentMethod, pending)`. -/
def allocatePreferred (slots : List DeliverySlot) (pid : Int) (now : Nat)
    (defaultSlot : Option DeliverySlot) :
    Option DeliverySlot × String × Option DeliverySlot :=
  match (validateSlotAvailability slots pid now).isAvailable,
      (validateSlotAvailability slots pid now).slot with
  | true, some slot =>
    (some { slot with currentUsage := slot.currentUsage + 1 },
      "user_selected",
      some { slot with currentUsage := slot.currentUsage + 1 })
  | _, _ => (defaultSlot, "fallback", none)

/-- Step 4 of `createOrder` (lines 57-85): slot allocation, covering the
no-preference branch (method stays at its initialisation `auto_assigned`). -/
def allocateSlot (env : Env) (db : DB) (preferredSlotId : Option Int) :
    Option DeliverySlot × String × Option DeliverySlot :=
  if jsTruthyId preferredSlotId then
    allocatePreferred db.slots (preferredSlotId.getD 0) env.now env.assignDefaultSlot
  else
    (env.assignDefaultSlot, "auto_assigned", none)

/-- `commitTransaction`: apply the buffered slot save (an update keyed on the
slot's primary key), if any, to the committed slot store. -/
def applyPending (slots : List DeliverySlot) : Option DeliverySlot →
    List DeliverySlot
  | none => slots
  | some p => slots.map (fun s => if s.id == p.id then p else s)

instance {α β : Type} [DecidableEq α] [DecidableEq β] :
    DecidableEq (Except α β) := fun a b =>
  match a, b with
  | Except.error x, Except.error y => decidable_of_iff (x = y) (by simp)
  | Except.error _, Except.ok _ => Decidable.isFalse (by simp)
  | Except.ok _, Except.error _ => Decidable.isFalse (by simp)
  | Except.ok x, Except.ok y => decidable_of_iff (x = y) (by simp)

/-- Outcome of one `createOrder` call: the returned value or thrown error,
the committed database state after the call, and (as a ghost observation for
the theorems) the final value of the `slotAssignmentMethod` variable when the
allocation step was reached. -/
structure CreateOrderRun where
  result : Except String Order
  db : DB
  method : Option String
deriving DecidableEq

/-- The `OrderItem` constructed for one line item in step 6 of
`createOrder`. -/
def mkOrderItem (env : Env) (orderId : Int) (item : IOrderItemInput) :
    OrderItem :=
  { orderId := orderId, skuId := item.skuId, quantity := item.qty,
    unitPrice := jsOr0 (env.itemPrices item.skuId),
    discount := jsOr0 (env.itemDiscounts item.skuId),
    subtotal := (jsOr0 (env.itemPrices item.skuId) -
      jsOr0 (env.itemDiscounts item.skuId)) * item.qty }

/-- The `Order` entity constructed in step 5 of `createOrder`. -/
def newOrderOf (env : Env) (db : DB) (orderInput : IOrderInput)
    (dslot : DeliverySlot) : Order :=
  { id := db.nextId, userId := orderInput.userId,
    addressId := orderInput.addressId, deliverySlotId := dslot.id,
    totalAmount := env.totalAmount, status := "pending" }

/-- The batch of `OrderItem` rows constructed in step 6. -/
def itemsOf (env : Env) (db : DB) (orderInput : IOrderInput) :
    List OrderItem :=
  orderInput.items.map (mkOrderItem env db.nextId)

/-- The committed state after steps 5 and 6 of `createOrder`: the Order row
(`orderRepository.save`, which also assigns the id) followed by the OrderItem
batch (`orderItemRepository.save`), both written through repositories bound
directly to the data source. -/
def dbAfterWrites (env : Env) (db : DB) (orderInput : IOrderInput)
    (dslot : DeliverySlot) : DB :=
  { db with orders := db.orders ++ [newOrderOf env db orderInput dslot],
            orderItems := db.orderItems ++ itemsOf env db orderInput,
            nextId := db.nextId + 1 }

/-- Steps 5-8 of `createOrder` (lines 95-147): persist the order and its
items (through repositories bound to the data source, hence directly to the
committed store), dispatch the notification, commit the transaction (which
applies the buffered slot increment), and re-read the saved order.  An error
thrown by the notification step rolls the transaction back, discarding only
the buffered slot write. -/
def persistPhase (env : Env) (db : DB) (orderInput : IOrderInput)
    (dslot : DeliverySlot) (m : String) (pending : Option DeliverySlot) :
    CreateOrderRun :=
  match notifyUser (dbAfterWrites env db orderInput dslot) env.notifSaveOk
      (newOrderOf env db orderInput dslot).id "order_created"
      orderInput.userId
      [("slotAssignmentMethod", JVal.str m),
       ("deliverySlot", JVal.slotObj dslot.id dslot.startTime dslot.endTime)] with
  | Except.error e =>
    { result := Except.error e, db := dbAfterWrites env db orderInput dslot,
      method := some m }
  | Except.ok (_, db3) =>
    match db3.orders.find?
        (fun o => o.id == (newOrderOf env db orderInput dslot).id) with
    | some o =>
      { result := Except.ok o,
        db := { db3 with slots := applyPending db3.slots pending },
        method := some m }
    | none =>
      { result := Except.error ("Failed to retrieve the created order with ID " ++
          toString (newOrderOf env db orderInput dslot).id),
        db := { db3 with slots := applyPending db3.slots pending },
        method := some m }

/-- src/unnamed/part_000 `createOrder`: the Order Transaction Orchestrator.
Inventory validation, user load, pricing, slot allocation, persistence,
notification and commit; any thrown error rolls back the transaction, which
un-does exactly the writes that went through the query runner (the slot
increment) while repository writes remain. -/
def createOrder (env : Env) (db : DB) (orderInput : IOrderInput) :
    CreateOrderRun :=
  if !env.inventoryValid then
    { result := Except.error ("Inventory validation failed: " ++
        String.intercalate ", " env.inventoryErrors),
      db := db, method := none }
  else if !(db.users.contains orderInput.userId) then
    { result := Except.error ("User with ID " ++ toString orderInput.userId ++
        " not found"),
      db := db, method := none }
  else
    match allocateSlot env db orderInput.preferredSlotId with
    | (none, m, _) =>
      { result := Except.error "No delivery slots available", db := db,
        method := some m }
    | (some dslot, m, pending) =>
      persistPhase env db orderInput dslot m pending

/-- Outcome of two interleaved `createOrder` calls racing for the same
preferred slot. -/
structure RaceOutcome where
  method1 : String
  method2 : String
  finalSlots : List DeliverySlot
deriving DecidableEq

/-- Two `createOrder` calls interleaved at the contention point: both run
`validateSlotAvailability` (which reads the committed store through its own
data-source handle, outside either transaction) before either transaction
commits its buffered slot save; then both commit.  This is the
read-committed interleaving `read₁, read₂, commit₁, commit₂` of the plain
read-then-write in lines 65-75 of `createOrder`. -/
def raceTwoPreferred (slots : List DeliverySlot) (pid : Int) (now : Nat)
    (default1 default2 : Option DeliverySlot) : RaceOutcome :=
  let a1 := allocatePreferred slots pid now default1
  let a2 := allocatePreferred slots pid now default2
  let slots1 := applyPending slots a1.2.2
  let slots2 := applyPending slots1 a2.2.2
  { method1 := a1.2.1, method2 := a2.2.1, finalSlots := slots2 }

/-- Concrete fixture: an active future slot with one unit of remaining
capacity (Scenario A of the spec). -/
def slotFixture : DeliverySlot :=
  { id := 1, startTime := 100, endTime := 103, isActive := true,
    currentUsage := 0, maxCapacity := 1 }

/-- Concrete fixture: an inactive slot with plenty of capacity and a future
start time. -/
def inactiveSlotFixture : DeliverySlot :=
  { id := 2, startTime := 100, endTime := 103, isActive := false,
    currentUsage := 0, maxCapacity := 5 }

/-- Concrete fixture environment: all collaborators succeed; item `A` costs
10 with no discount; no default slot is on offer. -/
def envFixture : Env :=
  { inventoryValid := true, inventoryErrors := [], totalAmount := 20,
    itemPrices := fun s => if s == "A" then some 10 else none,
    itemDiscounts := fun _ => none,
    assignDefaultSlot := none, notifSaveOk := true, now := 0 }

/-- Concrete fixture database: one available slot, one user, empty order,
item and notification tables. -/
def dbFixture : DB :=
  { slots := [slotFixture], users := [7], orders := [], orderItems := [],
    notifications := [], nextId := 1 }

/-- Concrete fixture request preferring `slotFixture`. -/
def inputFixture : IOrderInput :=
  { userId := 7, addressId := 3, items := [{ skuId := "A", qty := 2 }],
    preferredSlotId := some 1 }

/-- C1: the claimed atomicity fails on the code.  The Order and OrderItem
rows are saved through repositories bound to the data source, not through the
transaction's query runner, so when a later step fails (here: persisting the
Notification row) `createOrder` returns the error, the rollback discards the
buffered slot-capacity increment, but the already-written Order and OrderItem
rows remain — the post-call state differs from the pre-call state. -/
theorem C1_failure_leaves_partial_state :
    (createOrder { envFixture with notifSaveOk := false } dbFixture
        inputFixture).result =
      Except.error "Notification persistence failed" ∧
    (createOrder { envFixture with notifSaveOk := false } dbFixture
        inputFixture).db.slots = dbFixture.slots ∧
    (createOrder { envFixture with notifSaveOk := false } dbFixture
        inputFixture).db.orders ≠ dbFixture.orders ∧
    (createOrder { envFixture with notifSaveOk := false } dbFixture
        inputFixture).db.orderItems ≠ dbFixture.orderItems := by
  refine ⟨rfl, rfl, ?_, ?_⟩ <;> decide

/-- C2: concurrent capacity safety fails on the code.  Two requests prefer
`slotFixture`, whose remaining capacity is C = 1; in the read-committed
interleaving where both availability checks run before either commit, both
requests obtain the slot with method `user_selected` (instead of exactly one),
because the check-then-increment is a plain read-then-write with no row lock
or conditional update. -/
theorem C2_race_double_reservation :
    slotFixture.maxCapacity - slotFixture.currentUsage = 1 ∧
    (raceTwoPreferred [slotFixture] 1 0 none none).method1 = "user_selected" ∧
    (raceTwoPreferred [slotFixture] 1 0 none none).method2 = "user_selected" ∧
    (raceTwoPreferred [slotFixture] 1 0 none none).finalSlots =
      [{ slotFixture with currentUsage := 1 }] := by
  refine ⟨rfl, rfl, rfl, ?_⟩
  decide



/-- Characterisation of the availability predicate: the five outcomes
(not-found, inactive, full, past, available) with their priority order, the
unconditional unavailability of inactive and past slots, and the exact
condition for an available verdict. -/
theorem availability_characterisation (slots : List DeliverySlot) (slotId : Int)
    (now : Nat) :
    (slots.find? (fun s => s.id == slotId) = none →
      validateSlotAvailability slots slotId now =
        { isAvailable := false, slot := none,
          message := some ("Delivery slot with ID " ++ toString slotId ++
            " not found") }) ∧
    (∀ s, slots.find? (fun s2 => s2.id == slotId) = some s →
      (s.isActive = false →
        validateSlotAvailability slots slotId now =
          { isAvailable := false, slot := some s,
            message := some "Selected delivery slot is inactive" }) ∧
      (s.isActive = true → s.maxCapacity ≤ s.currentUsage →
        validateSlotAvailability slots slotId now =
          { isAvailable := false, slot := some s,
            message := some ("Selected delivery slot is full (" ++
              toString s.currentUsage ++ "/" ++ toString s.maxCapacity ++ ")") }) ∧
      (s.isActive = true → s.currentUsage < s.maxCapacity → s.startTime ≤ now →
        validateSlotAvailability slots slotId now =
          { isAvailable := false, slot := some s,
            message := some "Selected delivery slot has already passed" }) ∧
      (s.isActive = true → s.currentUsage < s.maxCapacity → now < s.startTime →
        validateSlotAvailability slots slotId now =
          { isAvailable := true, slot := some s, message := none }) ∧
      (s.isActive = false ∨ s.startTime ≤ now →
        (validateSlotAvailability slots slotId now).isAvailable = false)) ∧
    ((validateSlotAvailability slots slotId now).isAvailable = true ↔
      ∃ s, slots.find? (fun s2 => s2.id == slotId) = some s ∧
        s.isActive = true ∧ s.currentUsage < s.maxCapacity ∧
        now < s.startTime) := by
  unfold validateSlotAvailability
  cases hf : slots.find? (fun s => s.id == slotId) with
  | none =>
    refine ⟨fun _ => rfl, fun s hs => by simp [hf] at hs, ?_⟩
    simp
  | some s0 =>
    refine ⟨fun h => by simp at h, fun s hs => ?_, ?_⟩
    · have hss : s = s0 := (Option.some.inj hs).symm
      subst hss
      refine ⟨fun hact => ?_, fun hact hfull => ?_, fun hact hcap hpast => ?_,
        fun hact hcap hfut => ?_, fun hun => ?_⟩
      · simp [hact]
      · simp [hact, hfull]
      · simp [hact, if_neg (by omega : ¬ s.maxCapacity ≤ s.currentUsage), hpast]
      · simp [hact, if_neg (by omega : ¬ s.maxCapacity ≤ s.currentUsage),
          if_neg (by omega : ¬ s.startTime ≤ now)]
      · rcases hun with hin | hp
        · simp [hin]
        · by_cases hact : s.isActive
          · by_cases hfull : s.maxCapacity ≤ s.currentUsage
            · simp [hact, hfull]
            · simp [hact, hfull, hp]
          · simp [hact]
    · constructor
      · intro h
        by_cases hact : s0.isActive
        · by_cases hfull : s0.maxCapacity ≤ s0.currentUsage
          · simp [hact, hfull] at h
          · by_cases hpast : s0.startTime ≤ now
            · simp [hact, hfull, hpast] at h
            · exact ⟨s0, rfl, by simpa using hact, by omega, by omega⟩
        · simp [hact] at h
      · rintro ⟨s, hs, hact, hcap, hfut⟩
        have hss : s = s0 := (Option.some.inj hs).symm
        subst hss
        simp [hact, if_neg (by omega : ¬ s.maxCapacity ≤ s.currentUsage),
          if_neg (by omega : ¬ s.startTime ≤ now)]

/-- C5: the availability predicate returns exactly one of five outcomes,
determined by the first matching condition: not-found when no slot with the
identifier exists; inactive whenever `isActive` is false (regardless of
capacity or time); full when active but `currentUsage ≥ maxCapacity`; past
when active with spare capacity but `startTime ≤ now`; and available exactly
when none of these hold.  An inactive or past slot is reported unavailable
regardless of the other attributes, and the check (a pure function of the
committed store) performs no mutation. -/
theorem C5_availability_predicate (slots : List DeliverySlot) (slotId : Int)
    (now : Nat) :
    (slots.find? (fun s => s.id == slotId) = none →
      validateSlotAvailability slots slotId now =
        { isAvailable := false, slot := none,
          message := some ("Delivery slot with ID " ++ toString slotId ++
            " not found") }) ∧
    (∀ s, slots.find? (fun s2 => s2.id == slotId) = some s →
      (s.isActive = false →
        validateSlotAvailability slots slotId now =
          { isAvailable := false, slot := some s,
            message := some "Selected delivery slot is inactive" }) ∧
      (s.isActive = true → s.maxCapacity ≤ s.currentUsage →
        validateSlotAvailability slots slotId now =
          { isAvailable := false, slot := some s,
            message := some ("Selected delivery slot is full (" ++
              toString s.currentUsage ++ "/" ++ toString s.maxCapacity ++ ")") }) ∧
      (s.isActive = true → s.currentUsage < s.maxCapacity → s.startTime ≤ now →
        validateSlotAvailability slots slotId now =
          { isAvailable := false, slot := some s,
            message := some "Selected delivery slot has already passed" }) ∧
      (s.isActive = true → s.currentUsage < s.maxCapacity → now < s.startTime →
        validateSlotAvailability slots slotId now =
          { isAvailable := true, slot := some s, message := none }) ∧
      (s.isActive = false ∨ s.startTime ≤ now →
        (validateSlotAvailability slots slotId now).isAvailable = false)) ∧
    ((validateSlotAvailability slots slotId now).isAvailable = true ↔
      ∃ s, slots.find? (fun s2 => s2.id == slotId) = some s ∧
        s.isActive = true ∧ s.currentUsage < s.maxCapacity ∧
        now < s.startTime) :=
  availability_characterisation slots slotId now

/-- Witness for C5: concrete instances of the inactive, available and
not-found outcomes obtained through `C5_availability_predicate`. -/
theorem C5_availability_predicate_witness :
    validateSlotAvailability [inactiveSlotFixture] 2 0 =
      { isAvailable := false, slot := some inactiveSlotFixture,
        message := some "Selected delivery slot is inactive" } ∧
    validateSlotAvailability [slotFixture] 1 0 =
      { isAvailable := true, slot := some slotFixture, message := none } ∧
    validateSlotAvailability [slotFixture] 9 0 =
      { isAvailable := false, slot := none,
        message := some ("Delivery slot with ID " ++ toString (9 : Int) ++
          " not found") } :=
  ⟨((C5_availability_predicate [inactiveSlotFixture] 2 0).2.1
      inactiveSlotFixture (by decide)).1 (by decide),
   (((C5_availability_predicate [slotFixture] 1 0).2.1 slotFixture
      (by decide)).2.2.2.1) (by decide) (by decide) (by decide),
   (C5_availability_predicate [slotFixture] 9 0).1 (by decide)⟩

/-- Dispatching an `order_created` notification with a working save appends
exactly one Notification row and touches nothing else. -/
theorem notifyUser_order_created_ok (db : DB) (orderId userId : Int)
    (ad : List (String × JVal)) :
    ∃ n : Notification,
      notifyUser db true orderId "order_created" userId ad =
        Except.ok (n, { db with notifications := db.notifications ++ [n] }) :=
  ⟨_, rfl⟩

/-- Dispatching an `order_created` notification with a failing save throws and
writes nothing. -/
theorem notifyUser_order_created_err (db : DB) (orderId userId : Int)
    (ad : List (String × JVal)) :
    notifyUser db false orderId "order_created" userId ad =
      Except.error "Notification persistence failed" :=
  rfl

/-- Looking the freshly inserted order up again finds it when its id is fresh
for the pre-existing rows. -/
theorem find_fresh_order (orders : List Order) (newO : Order) (nid : Int)
    (hid : newO.id = nid) (hfresh : ∀ o ∈ orders, o.id ≠ nid) :
    (orders ++ [newO]).find? (fun o => o.id == nid) = some newO := by
  induction orders with
  | nil => simp [List.find?, hid]
  | cons a as ih =>
    have ha : (a.id == nid) = false := by
      have := hfresh a (by simp)
      simpa using this
    rw [List.cons_append, List.find?_cons_of_neg _ (by simp [ha])]
    exact ih (fun o ho => hfresh o (by simp [ho]))

/-- Shape of the persistence phase: the Order row and the OrderItem batch are
committed unconditionally; when the notification save succeeds one
Notification row is appended, the buffered slot write is applied and the
re-read order is returned (when its id was fresh), while a notification
failure leaves the slot store untouched but keeps the Order and OrderItem
writes.  In both cases the recorded assignment method is `m`. -/
theorem persistPhase_shape (env : Env) (db : DB) (orderInput : IOrderInput)
    (dslot : DeliverySlot) (m : String) (pending : Option DeliverySlot) :
    (env.notifSaveOk = false ∧
      persistPhase env db orderInput dslot m pending =
        { result := Except.error "Notification persistence failed",
          db := { db with
            orders := db.orders ++ [newOrderOf env db orderInput dslot],
            orderItems := db.orderItems ++ itemsOf env db orderInput,
            nextId := db.nextId + 1 },
          method := some m }) ∨
    (env.notifSaveOk = true ∧ ∃ n res,
      persistPhase env db orderInput dslot m pending =
        { result := res,
          db := { db with
            slots := applyPending db.slots pending,
            orders := db.orders ++ [newOrderOf env db orderInput dslot],
            orderItems := db.orderItems ++ itemsOf env db orderInput,
            notifications := db.notifications ++ [n],
            nextId := db.nextId + 1 },
          method := some m } ∧
      (∀ o, res = Except.ok o → o.id = db.nextId) ∧
      ((∀ o ∈ db.orders, o.id ≠ db.nextId) →
        res = Except.ok (newOrderOf env db orderInput dslot))) := by
  cases hsave : env.notifSaveOk with
  | false =>
    left
    refine ⟨rfl, ?_⟩
    unfold persistPhase
    rw [hsave, notifyUser_order_created_err]
    rfl
  | true =>
    right
    refine ⟨rfl, ?_⟩
    unfold persistPhase
    rw [hsave]
    obtain ⟨n, hn⟩ := notifyUser_order_created_ok
      (dbAfterWrites env db orderInput dslot)
      (newOrderOf env db orderInput dslot).id orderInput.userId
      [("slotAssignmentMethod", JVal.str m),
       ("deliverySlot", JVal.slotObj dslot.id dslot.startTime dslot.endTime)]
    rw [hn]
    refine ⟨n, ?_⟩
    dsimp only [dbAfterWrites]
    cases hfind : (db.orders ++ [newOrderOf env db orderInput dslot]).find?
        (fun o => o.id == (newOrderOf env db orderInput dslot).id) with
    | some o =>
      refine ⟨Except.ok o, rfl, ?_, ?_⟩
      · intro o2 ho2
        cases ho2
        have := List.find?_some hfind
        simpa [newOrderOf] using this
      · intro hfresh
        have hf2 := find_fresh_order db.orders (newOrderOf env db orderInput dslot)
          (newOrderOf env db orderInput dslot).id rfl (fun o ho => hfresh o ho)
        rw [hf2] at hfind
        injection hfind with h
        exact congrArg Except.ok h.symm
    | none =>
      refine ⟨Except.error ("Failed to retrieve the created order with ID " ++
          toString (newOrderOf env db orderInput dslot).id), rfl, ?_, ?_⟩
      · intro o2 ho2
        cases ho2
      · intro hfresh
        have hf2 := find_fresh_order db.orders (newOrderOf env db orderInput dslot)
          (newOrderOf env db orderInput dslot).id rfl (fun o ho => hfresh o ho)
        rw [hf2] at hfind
        simp at hfind

/-- Case analysis of `createOrder`: it either fails before allocation with the
database untouched, fails allocation with `no slots available` and the
database untouched, or reaches the persistence phase with the allocated slot,
method and buffered write. -/
theorem createOrder_cases (env : Env) (db : DB) (input : IOrderInput) :
    ((createOrder env db input).db = db ∧
      (createOrder env db input).method = none ∧
      ∃ e, (createOrder env db input).result = Except.error e) ∨
    ((createOrder env db input).db = db ∧
      (createOrder env db input).method =
        some (allocateSlot env db input.preferredSlotId).2.1 ∧
      (allocateSlot env db input.preferredSlotId).1 = none ∧
      (createOrder env db input).result =
        Except.error "No delivery slots available") ∨
    (∃ dslot, (allocateSlot env db input.preferredSlotId).1 = some dslot ∧
      createOrder env db input =
        persistPhase env db input dslot
          (allocateSlot env db input.preferredSlotId).2.1
          (allocateSlot env db input.preferredSlotId).2.2) := by
  unfold createOrder
  cases hinv : env.inventoryValid with
  | false => exact Or.inl ⟨rfl, rfl, _, rfl⟩
  | true =>
    cases huser : db.users.contains input.userId with
    | false => exact Or.inl ⟨rfl, rfl, _, rfl⟩
    | true =>
      rcases halloc : allocateSlot env db input.preferredSlotId with
        ⟨oslot, m, pending⟩
      cases oslot with
      | none => exact Or.inr (Or.inl ⟨rfl, rfl, rfl, rfl⟩)
      | some d => exact Or.inr (Or.inr ⟨d, rfl, rfl⟩)

/-- Allocation outcomes: either the user-selected branch was taken (the
validated slot is reported available, the method is `user_selected` and the
buffered write is the incremented slot), or the Default Slot Assigner was
delegated to (method `auto_assigned` or `fallback`) with no buffered slot
write at all. -/
theorem allocateSlot_cases (env : Env) (db : DB) (pref : Option Int) :
    (∃ slot, jsTruthyId pref = true ∧
      validateSlotAvailability db.slots (pref.getD 0) env.now =
        { isAvailable := true, slot := some slot, message := none } ∧
      allocateSlot env db pref =
        (some { slot with currentUsage := slot.currentUsage + 1 },
          "user_selected",
          some { slot with currentUsage := slot.currentUsage + 1 })) ∨
    (allocateSlot env db pref =
        (env.assignDefaultSlot, "auto_assigned", none) ∧
      jsTruthyId pref = false) ∨
    (allocateSlot env db pref = (env.assignDefaultSlot, "fallback", none) ∧
      jsTruthyId pref = true ∧
      (validateSlotAvailability db.slots (pref.getD 0) env.now).isAvailable =
        false) := by
  unfold allocateSlot
  cases htr : jsTruthyId pref with
  | false => exact Or.inr (Or.inl ⟨rfl, rfl⟩)
  | true =>
    unfold allocatePreferred
    cases hv : (validateSlotAvailability db.slots (pref.getD 0) env.now).isAvailable with
    | false => exact Or.inr (Or.inr ⟨rfl, rfl, rfl⟩)
    | true =>
      cases hs : (validateSlotAvailability db.slots (pref.getD 0) env.now).slot with
      | none =>
        have h5 := (availability_characterisation db.slots (pref.getD 0) env.now).2.2
        rw [hv] at h5
        obtain ⟨s, hfind, hact, hcap, hfut⟩ := h5.mp rfl
        have hvv := (((availability_characterisation db.slots (pref.getD 0)
          env.now).2.1 s hfind).2.2.2.1) hact hcap hfut
        rw [hvv] at hs
        simp at hs
      | some slot =>
        left
        have h5 := (availability_characterisation db.slots (pref.getD 0) env.now).2.2
        rw [hv] at h5
        obtain ⟨s, hfind, hact, hcap, hfut⟩ := h5.mp rfl
        have hvv := (((availability_characterisation db.slots (pref.getD 0)
          env.now).2.1 s hfind).2.2.2.1) hact hcap hfut
        have hslot : slot = s := by
          rw [hvv] at hs
          simpa using hs.symm
        subst hslot
        exact ⟨slot, rfl, hvv, rfl⟩

/-- Inversion of an `available` verdict: the slot was found in the store, is
active, has spare capacity and lies in the future. -/
theorem validate_available_inv (slots : List DeliverySlot) (slotId : Int)
    (now : Nat) (slot : DeliverySlot)
    (hv : validateSlotAvailability slots slotId now =
      { isAvailable := true, slot := some slot, message := none }) :
    slots.find? (fun s => s.id == slotId) = some slot ∧
    slot.isActive = true ∧ slot.currentUsage < slot.maxCapacity ∧
    now < slot.startTime := by
  have htrue : (validateSlotAvailability slots slotId now).isAvailable = true := by
    rw [hv]
  obtain ⟨s, hfind, hact, hcap, hfut⟩ :=
    (availability_characterisation slots slotId now).2.2.mp htrue
  have hvv := ((availability_characterisation slots slotId now).2.1 s
    hfind).2.2.2.1 hact hcap hfut
  have heq := hv.symm.trans hvv
  have hss : slot = s := by
    have := congrArg SlotValidation.slot heq
    simpa using this
  subst hss
  exact ⟨hfind, hact, hcap, hfut⟩

/-- The persistence phase always records the assignment method it was given. -/
theorem persistPhase_method (env : Env) (db : DB) (input : IOrderInput)
    (dslot : DeliverySlot) (m : String) (pending : Option DeliverySlot) :
    (persistPhase env db input dslot m pending).method = some m := by
  rcases persistPhase_shape env db input dslot m pending with
    ⟨-, hp⟩ | ⟨-, n, res, hp, -, -⟩ <;> rw [hp]

/-- Once inventory and user checks pass, the recorded method is the one the
allocation step chose. -/
theorem createOrder_alloc_method (env : Env) (db : DB) (input : IOrderInput)
    (h1 : env.inventoryValid = true)
    (h2 : db.users.contains input.userId = true) :
    (createOrder env db input).method =
      some (allocateSlot env db input.preferredSlotId).2.1 := by
  unfold createOrder
  rw [h1, h2]
  rcases halloc : allocateSlot env db input.preferredSlotId with ⟨oslot, m, pending⟩
  cases oslot with
  | none => rfl
  | some d => exact persistPhase_method env db input d m pending

/-- Once inventory and user checks pass and allocation produced a slot, the
run is exactly the persistence phase on that slot. -/
theorem createOrder_run_of_alloc (env : Env) (db : DB) (input : IOrderInput)
    (d : DeliverySlot) (m : String) (p : Option DeliverySlot)
    (h1 : env.inventoryValid = true)
    (h2 : db.users.contains input.userId = true)
    (halloc : allocateSlot env db input.preferredSlotId = (some d, m, p)) :
    createOrder env db input = persistPhase env db input d m p := by
  unfold createOrder
  rw [h1, h2, halloc]
  rfl

/-- Concrete fixture: the slot returned by the Default Slot Assigner in
witnesses. -/
def defaultSlotFixture : DeliverySlot :=
  { id := 5, startTime := 200, endTime := 203, isActive := true,
    currentUsage := 0, maxCapacity := 10 }

/-- Fixture environment whose Default Slot Assigner offers
`defaultSlotFixture`. -/
def envDefaultFixture : Env :=
  { envFixture with assignDefaultSlot := some defaultSlotFixture }

/-- Fixture request with no slot preference. -/
def inputNoPrefFixture : IOrderInput :=
  { inputFixture with preferredSlotId := none }

/-- Concrete fixture: an active future slot that is already full. -/
def fullSlotFixture : DeliverySlot :=
  { id := 1, startTime := 100, endTime := 103, isActive := true,
    currentUsage := 1, maxCapacity := 1 }

/-- C10: frame property of default assignment — whenever the slot was
obtained from the Default Slot Assigner (method `auto_assigned` or
`fallback`), `createOrder` performs no write to the slot store: the only
slot mutation it ever performs is the increment of the `user_selected`
path. -/
theorem C10_no_slot_write_on_default_paths (env : Env) (db : DB)
    (input : IOrderInput) :
    ((createOrder env db input).method = some "auto_assigned" ∨
     (createOrder env db input).method = some "fallback") →
    (createOrder env db input).db.slots = db.slots := by
  intro hm
  rcases createOrder_cases env db input with
    ⟨hdb, -, -⟩ | ⟨hdb, -, -, -⟩ | ⟨dslot, halloc1, hrun⟩
  · rw [hdb]
  · rw [hdb]
  · rcases persistPhase_shape env db input dslot
      (allocateSlot env db input.preferredSlotId).2.1
      (allocateSlot env db input.preferredSlotId).2.2 with
      ⟨-, hp⟩ | ⟨-, n, res, hp, -, -⟩
    · rw [hrun, hp]
    · rw [hrun, hp]
      rcases allocateSlot_cases env db input.preferredSlotId with
        ⟨slot, -, -, ha⟩ | ⟨ha, -⟩ | ⟨ha, -, -⟩
      · exfalso
        rw [hrun, hp, ha] at hm
        simp at hm
      · rw [ha]
        rfl
      · rw [ha]
        rfl

/-- Witness for C10: a request with no preference is served from the default
assigner and leaves the slot store untouched. -/
theorem C10_no_slot_write_on_default_paths_witness :
    (createOrder envDefaultFixture dbFixture inputNoPrefFixture).db.slots =
      dbFixture.slots :=
  C10_no_slot_write_on_default_paths envDefaultFixture dbFixture
    inputNoPrefFixture (Or.inl (by decide))

/-- C4: fallback and default assignment — once inventory and user checks
pass: with no preferred slot the allocator delegates to the Default Slot
Assigner under method `auto_assigned`; with a preferred slot reported
unavailable it delegates under method `fallback`; and in either delegation
case a Default Slot Assigner returning no slot fails the whole creation with
the `no slots available` error (leaving the database unchanged). -/
theorem C4_fallback_and_default_assignment (env : Env) (db : DB)
    (input : IOrderInput)
    (h1 : env.inventoryValid = true)
    (h2 : db.users.contains input.userId = true) :
    (input.preferredSlotId = none →
      (createOrder env db input).method = some "auto_assigned" ∧
      (allocateSlot env db input.preferredSlotId).1 = env.assignDefaultSlot) ∧
    (∀ pid, input.preferredSlotId = some pid → pid ≠ 0 →
      (validateSlotAvailability db.slots pid env.now).isAvailable = false →
      (createOrder env db input).method = some "fallback" ∧
      (allocateSlot env db input.preferredSlotId).1 = env.assignDefaultSlot) ∧
    ((jsTruthyId input.preferredSlotId = false ∨
        (validateSlotAvailability db.slots (input.preferredSlotId.getD 0)
          env.now).isAvailable = false) →
      env.assignDefaultSlot = none →
      (createOrder env db input).result =
        Except.error "No delivery slots available" ∧
      (createOrder env db input).db = db) := by
  refine ⟨?_, ?_, ?_⟩
  · intro hnone
    constructor
    · rw [createOrder_alloc_method env db input h1 h2, hnone]
      rfl
    · rw [hnone]
      rfl
  · intro pid hpid hpid0 hval
    have hgetd : input.preferredSlotId.getD 0 = pid := by rw [hpid]; rfl
    rcases allocateSlot_cases env db input.preferredSlotId with
      ⟨slot, htr, hv2, ha⟩ | ⟨ha, htr⟩ | ⟨ha, htr, hvf⟩
    · exfalso
      rw [hgetd] at hv2
      rw [hv2] at hval
      simp at hval
    · exfalso
      rw [hpid] at htr
      simp [jsTruthyId, hpid0] at htr
    · constructor
      · rw [createOrder_alloc_method env db input h1 h2, ha]
      · rw [ha]
  · intro hdel hdefnone
    have hnone1 : (allocateSlot env db input.preferredSlotId).1 = none := by
      rcases allocateSlot_cases env db input.preferredSlotId with
        ⟨slot, htr, hv2, ha⟩ | ⟨ha, htr⟩ | ⟨ha, htr, hvf⟩
      · exfalso
        rcases hdel with hfalse | hunav
        · rw [htr] at hfalse; cases hfalse
        · rw [hv2] at hunav; simp at hunav
      · rw [ha, hdefnone]
      · rw [ha, hdefnone]
    rcases createOrder_cases env db input with
      ⟨-, hmeth, -⟩ | ⟨hdb, -, -, hres⟩ | ⟨dslot, hsome, -⟩
    · exfalso
      rw [createOrder_alloc_method env db input h1 h2] at hmeth
      cases hmeth
    · exact ⟨hres, hdb⟩
    · exfalso
      rw [hnone1] at hsome
      cases hsome

/-- Witness for C4: with no preference and no default slot on offer, order
creation fails with the `no slots available` error and changes nothing; with
a full preferred slot and a default on offer, the method is `fallback`. -/
theorem C4_fallback_and_default_assignment_witness :
    ((createOrder envFixture dbFixture inputNoPrefFixture).result =
        Except.error "No delivery slots available" ∧
      (createOrder envFixture dbFixture inputNoPrefFixture).db = dbFixture) ∧
    (createOrder { envDefaultFixture with now := 0 }
        { dbFixture with slots := [fullSlotFixture] } inputFixture).method =
      some "fallback" :=
  ⟨(C4_fallback_and_default_assignment envFixture dbFixture inputNoPrefFixture
      (by decide) (by decide)).2.2 (Or.inl (by decide)) (by decide),
   ((C4_fallback_and_default_assignment { envDefaultFixture with now := 0 }
      { dbFixture with slots := [fullSlotFixture] } inputFixture
      (by decide) (by decide)).2.1 1 (by decide) (by decide) (by decide)).1⟩

/-- C3: user-selected reservation — when a (truthy) preferred slot id is
supplied and the Availability Checker reports it available, order creation
succeeds with assignment method `user_selected`, the created order references
that slot, and after the transaction commits the slot's `currentUsage` is
incremented by exactly 1 in the committed store. -/
theorem C3_user_selected_reservation (env : Env) (db : DB)
    (input : IOrderInput) (pid : Int) (slot : DeliverySlot)
    (h1 : env.inventoryValid = true)
    (h2 : db.users.contains input.userId = true)
    (hpid : input.preferredSlotId = some pid) (hpid0 : pid ≠ 0)
    (hv : validateSlotAvailability db.slots pid env.now =
      { isAvailable := true, slot := some slot, message := none })
    (hsave : env.notifSaveOk = true)
    (hfresh : ∀ o ∈ db.orders, o.id ≠ db.nextId) :
    (createOrder env db input).method = some "user_selected" ∧
    (∃ o, (createOrder env db input).result = Except.ok o ∧
      o.deliverySlotId = slot.id ∧ o.id = db.nextId ∧ o.status = "pending") ∧
    (createOrder env db input).db.slots =
      db.slots.map (fun s => if s.id == slot.id then
        { slot with currentUsage := slot.currentUsage + 1 } else s) := by
  have hgetd : input.preferredSlotId.getD 0 = pid := by rw [hpid]; rfl
  have halloc : allocateSlot env db input.preferredSlotId =
      (some { slot with currentUsage := slot.currentUsage + 1 },
        "user_selected",
        some { slot with currentUsage := slot.currentUsage + 1 }) := by
    rcases allocateSlot_cases env db input.preferredSlotId with
      ⟨s2, htr, hv2, ha⟩ | ⟨ha, htr⟩ | ⟨ha, htr, hvf⟩
    · rw [hgetd] at hv2
      have heq := hv.symm.trans hv2
      have hss : slot = s2 := by
        have := congrArg SlotValidation.slot heq
        simpa using this
      subst hss
      exact ha
    · exfalso
      rw [hpid] at htr
      simp [jsTruthyId, hpid0] at htr
    · exfalso
      rw [hgetd] at hvf
      rw [hv] at hvf
      simp at hvf
  have hrun := createOrder_run_of_alloc env db input _ _ _ h1 h2 halloc
  rcases persistPhase_shape env db input
      { slot with currentUsage := slot.currentUsage + 1 } "user_selected"
      (some { slot with currentUsage := slot.currentUsage + 1 }) with
    ⟨hf, -⟩ | ⟨-, n, res, hp, hid, hres⟩
  · rw [hf] at hsave
    cases hsave
  · refine ⟨?_, ?_, ?_⟩
    · rw [hrun, hp]
    · refine ⟨newOrderOf env db input
        { slot with currentUsage := slot.currentUsage + 1 }, ?_, rfl, rfl, rfl⟩
      rw [hrun, hp]
      exact hres hfresh
    · rw [hrun, hp]
      rfl

/-- Witness for C3: Scenario A — the fixture slot with `maxCapacity = 1`,
`currentUsage = 0`, active and in the future, requested as preferred, is
reserved with method `user_selected` and ends with `currentUsage = 1`. -/
theorem C3_user_selected_reservation_witness :
    (createOrder envFixture dbFixture inputFixture).method =
      some "user_selected" ∧
    (createOrder envFixture dbFixture inputFixture).db.slots =
      [{ slotFixture with currentUsage := 1 }] := by
  have h := C3_user_selected_reservation envFixture dbFixture inputFixture 1
    slotFixture (by decide) (by decide) rfl (by decide) (by decide) rfl
    (by decide)
  refine ⟨h.1, ?_⟩
  rw [h.2.2]
  decide

/-- C6: capacity invariant — if every slot satisfies
`0 ≤ currentUsage ≤ maxCapacity` before a `createOrder` call then every slot
still satisfies it afterwards (success or failure), and a successful
user-selected reservation increments the reserved slot's usage by exactly 1
without exceeding `maxCapacity`. -/
theorem C6_capacity_invariant (env : Env) (db : DB) (input : IOrderInput)
    (hpre : ∀ s ∈ db.slots,
      0 ≤ s.currentUsage ∧ s.currentUsage ≤ s.maxCapacity) :
    (∀ s ∈ (createOrder env db input).db.slots,
      0 ≤ s.currentUsage ∧ s.currentUsage ≤ s.maxCapacity) ∧
    (∀ o slot, (createOrder env db input).result = Except.ok o →
      (createOrder env db input).method = some "user_selected" →
      validateSlotAvailability db.slots (input.preferredSlotId.getD 0)
          env.now =
        { isAvailable := true, slot := some slot, message := none } →
      ((createOrder env db input).db.slots =
        db.slots.map (fun s => if s.id == slot.id then
          { slot with currentUsage := slot.currentUsage + 1 } else s) ∧
        slot.currentUsage + 1 ≤ slot.maxCapacity)) := by
  constructor
  · have hslots : (createOrder env db input).db.slots = db.slots ∨
        ∃ slot, validateSlotAvailability db.slots
            (input.preferredSlotId.getD 0) env.now =
          { isAvailable := true, slot := some slot, message := none } ∧
        (createOrder env db input).db.slots =
          db.slots.map (fun s => if s.id == slot.id then
            { slot with currentUsage := slot.currentUsage + 1 } else s) := by
      rcases createOrder_cases env db input with
        ⟨hdb, -, -⟩ | ⟨hdb, -, -, -⟩ | ⟨dslot, -, hrun⟩
      · left; rw [hdb]
      · left; rw [hdb]
      · rcases persistPhase_shape env db input dslot
          (allocateSlot env db input.preferredSlotId).2.1
          (allocateSlot env db input.preferredSlotId).2.2 with
          ⟨-, hp⟩ | ⟨-, n, res, hp, -, -⟩
        · left; rw [hrun, hp]
        · rcases allocateSlot_cases env db input.preferredSlotId with
            ⟨slot, htr, hv2, ha⟩ | ⟨ha, -⟩ | ⟨ha, -, -⟩
          · right
            refine ⟨slot, hv2, ?_⟩
            rw [hrun, hp, ha]
            rfl
          · left; rw [hrun, hp, ha]; rfl
          · left; rw [hrun, hp, ha]; rfl
    rcases hslots with h | ⟨slot, hv2, h⟩
    · rw [h]; exact hpre
    · rw [h]
      intro s hs
      rw [List.mem_map] at hs
      obtain ⟨y, hy, rfl⟩ := hs
      obtain ⟨hfind, -, hcap, -⟩ := validate_available_inv _ _ _ _ hv2
      have hmem := List.mem_of_find?_eq_some hfind
      have h0 := hpre slot hmem
      cases hid : y.id == slot.id with
      | true =>
        constructor
        · show (0 : Int) ≤ slot.currentUsage + 1
          omega
        · show slot.currentUsage + 1 ≤ slot.maxCapacity
          omega
      | false =>
        exact hpre y hy
  · intro o slot hok hmeth hv2
    obtain ⟨-, -, hcap, -⟩ := validate_available_inv _ _ _ _ hv2
    refine ⟨?_, by omega⟩
    rcases createOrder_cases env db input with
      ⟨-, -, e, he⟩ | ⟨-, -, -, he⟩ | ⟨dslot, -, hrun⟩
    · rw [he] at hok; cases hok
    · rw [he] at hok; cases hok
    · rcases persistPhase_shape env db input dslot
        (allocateSlot env db input.preferredSlotId).2.1
        (allocateSlot env db input.preferredSlotId).2.2 with
        ⟨-, hp⟩ | ⟨-, n, res, hp, -, -⟩
      · rw [hrun, hp] at hok
        simp at hok
      · rcases allocateSlot_cases env db input.preferredSlotId with
          ⟨s2, htr, hv3, ha⟩ | ⟨ha, -⟩ | ⟨ha, -, -⟩
        · have hss : s2 = slot := by
            have heq := hv3.symm.trans hv2
            have := congrArg SlotValidation.slot heq
            simpa using this
          subst hss
          rw [hrun, hp, ha]
          rfl
        · exfalso
          rw [hrun, hp, ha] at hmeth
          simp at hmeth
        · exfalso
          rw [hrun, hp, ha] at hmeth
          simp at hmeth

/-- Witness for C6: the invariant holds for the committed slot after Scenario
A's reservation, and the reserved increment stays within capacity. -/
theorem C6_capacity_invariant_witness :
    (0 ≤ ({ slotFixture with currentUsage := 1 } : DeliverySlot).currentUsage ∧
      ({ slotFixture with currentUsage := 1 } : DeliverySlot).currentUsage ≤
        ({ slotFixture with currentUsage := 1 } : DeliverySlot).maxCapacity) ∧
    slotFixture.currentUsage + 1 ≤ slotFixture.maxCapacity :=
  ⟨(C6_capacity_invariant envFixture dbFixture inputFixture (by decide)).1
      { slotFixture with currentUsage := 1 } (by decide),
   ((C6_capacity_invariant envFixture dbFixture inputFixture (by decide)).2
      { id := 1, userId := 7, addressId := 3, deliverySlotId := 1,
        totalAmount := 20, status := "pending" } slotFixture
      (by decide) (by decide) (by decide)).2⟩

/-- C7: order-item snapshotting — every successfully created order persists
one OrderItem per requested line item, with `unitPrice` and `discount` taken
from the price calculator's maps (defaulting to 0 when the sku is absent
from a map) and `subtotal = (unitPrice - discount) * quantity`. -/
theorem C7_order_item_snapshot (env : Env) (db : DB) (input : IOrderInput)
    (o : Order)
    (hok : (createOrder env db input).result = Except.ok o) :
    o.id = db.nextId ∧
    (createOrder env db input).db.orderItems =
      db.orderItems ++ input.items.map (fun it =>
        ({ orderId := db.nextId, skuId := it.skuId, quantity := it.qty,
           unitPrice := jsOr0 (env.itemPrices it.skuId),
           discount := jsOr0 (env.itemDiscounts it.skuId),
           subtotal := (jsOr0 (env.itemPrices it.skuId) -
             jsOr0 (env.itemDiscounts it.skuId)) * it.qty } : OrderItem)) := by
  rcases createOrder_cases env db input with
    ⟨-, -, e, he⟩ | ⟨-, -, -, he⟩ | ⟨dslot, -, hrun⟩
  · rw [he] at hok; cases hok
  · rw [he] at hok; cases hok
  · rcases persistPhase_shape env db input dslot
      (allocateSlot env db input.preferredSlotId).2.1
      (allocateSlot env db input.preferredSlotId).2.2 with
      ⟨-, hp⟩ | ⟨-, n, res, hp, hid, -⟩
    · rw [hrun, hp] at hok
      simp at hok
    · constructor
      · rw [hrun, hp] at hok
        exact hid o hok
      · rw [hrun, hp]
        rfl

/-- Witness for C7: Scenario C — one line item `(skuId A, qty 2)` with price
map `A := 10` and empty discount map yields the single OrderItem with
`unitPrice = 10`, `discount = 0`, `subtotal = 20`. -/
theorem C7_order_item_snapshot_witness :
    (createOrder envFixture dbFixture inputFixture).db.orderItems =
      [{ orderId := 1, skuId := "A", quantity := 2, unitPrice := 10,
         discount := 0, subtotal := 20 }] := by
  have h := C7_order_item_snapshot envFixture dbFixture inputFixture
    { id := 1, userId := 7, addressId := 3, deliverySlotId := 1,
      totalAmount := 20, status := "pending" } (by decide)
  rw [h.2]
  decide

/-- String concatenation is associative (component lemma for the rendering
proof). -/
theorem string_append_assoc (a b c : String) : a ++ b ++ c = a ++ (b ++ c) :=
  congrArg String.mk (List.append_assoc a.data b.data c.data)

/-- Modelled from the spec wording of section 4.4 (claim side, for
comparison with the code's renderer): the weekday name of a timestamp. -/
def specWeekdayName (t : Nat) : String :=
  ["Sunday", "Monday", "Tuesday", "Wednesday", "Thursday", "Friday",
    "Saturday"].getD ((t / 24 + 4) % 7) ""

/-- Modelled from the spec: the displayed 12-hour figure of a timestamp. -/
def specHour (t : Nat) : Nat :=
  if t % 24 % 12 == 0 then 12 else t % 24 % 12

/-- Modelled from the spec: the AM/PM marker of a timestamp. -/
def specAmPm (t : Nat) : String :=
  if 12 ≤ t % 24 then "PM" else "AM"

/-- Modelled from the spec: the window rendering
`<WeekdayName> <h>:00 <AM|PM> - <h>:00 <AM|PM>` — minutes are never shown. -/
def specWindow (s e : Nat) : String :=
  specWeekdayName s ++ " " ++ toString (specHour s) ++ ":00 " ++ specAmPm s ++
    " - " ++ toString (specHour e) ++ ":00 " ++ specAmPm e

/-- Modelled from the spec: the method-specific delivery phrase around the
rendered window (`auto_assigned` and any other method fall to
`Scheduled for`). -/
def specDeliveryPhrase (m : String) (s e : Nat) : String :=
  if m == "user_selected" then
    "Your selected delivery time: " ++ specWindow s e
  else if m == "fallback" then
    "Your preferred time slot was unavailable, so we assigned the next available slot: " ++ specWindow s e
  else
    "Scheduled for " ++ specWindow s e

/-- The code's window rendering coincides with the spec's format string. -/
theorem renderWindow_eq_spec (s e : Nat) : renderWindow s e = specWindow s e := by
  unfold renderWindow specWindow specWeekdayName specHour specAmPm formatTime
    dayNames getDay getHours
  simp only [string_append_assoc]

/-- C8: delivery-info rendering — for every payload carrying an assignment
method and a slot window, the rendered phrase is the method-specific one
(`user_selected`, `fallback`, or the `Scheduled for` default) and the window
renders as `<WeekdayName> <h>:00 <AM|PM> - <h>:00 <AM|PM>` with minutes never
shown, as captured by the spec-side renderer `specDeliveryPhrase`. -/
theorem C8_delivery_info_rendering (db : DB) (orderId slotId : Int)
    (s e : Nat) (m : String) (hm : m ≠ "") :
    formatDeliveryTime db orderId
      [("slotAssignmentMethod", JVal.str m),
       ("deliverySlot", JVal.slotObj slotId s e)] =
    specDeliveryPhrase m s e := by
  have hdv : ((([("slotAssignmentMethod", JVal.str m),
      ("deliverySlot", JVal.slotObj slotId s e)] :
        List (String × JVal)).lookup "deliverySlot").getD JVal.null) =
      JVal.slotObj slotId s e := rfl
  have hmv : ((([("slotAssignmentMethod", JVal.str m),
      ("deliverySlot", JVal.slotObj slotId s e)] :
        List (String × JVal)).lookup "slotAssignmentMethod").getD JVal.null) =
      JVal.str m := rfl
  have h1 : formatDeliveryTime db orderId
      [("slotAssignmentMethod", JVal.str m),
       ("deliverySlot", JVal.slotObj slotId s e)] =
      methodPhrase (JVal.str m) (renderWindow s e) := by
    unfold formatDeliveryTime
    rw [hdv, hmv]
    simp only [jsTruthy]
    cases hme : m == "" with
    | true => exact absurd (by simpa using hme) hm
    | false => rfl
  rw [h1, renderWindow_eq_spec]
  by_cases hm1 : m = "user_selected"
  · subst hm1
    rfl
  · by_cases hm2 : m = "fallback"
    · subst hm2
      rfl
    · have e1 : (JVal.str m == JVal.str "user_selected") = false := by
        simp [hm1]
      have e2 : (JVal.str m == JVal.str "fallback") = false := by
        simp [hm2]
      have e3 : (m == "user_selected") = false := by
        simp [hm1]
      have e4 : (m == "fallback") = false := by
        simp [hm2]
      unfold methodPhrase specDeliveryPhrase
      rw [e1, e2, e3, e4]

/-- Witness for C8: Scenario D — a fallback assignment for a Sunday
14:00-17:00 window renders the fallback phrase with
`Sunday 2:00 PM - 5:00 PM`. -/
theorem C8_delivery_info_rendering_witness :
    formatDeliveryTime dbFixture 5
      [("slotAssignmentMethod", JVal.str "fallback"),
       ("deliverySlot", JVal.slotObj 1 86 89)] =
      "Your preferred time slot was unavailable, so we assigned the next available slot: Sunday 2:00 PM - 5:00 PM" := by
  have h := C8_delivery_info_rendering dbFixture 5 1 86 89 "fallback"
    (by decide)
  rw [h]
  rfl

/-- Strings with equal character lists are equal. -/
theorem strData_inj (a b : String) (h : a.data = b.data) : a = b := by
  cases a
  cases b
  cases h
  rfl

/-- A list begins any extension of itself. -/
theorem leadsWith_append_self (xs ys : List Char) :
    leadsWith xs (xs ++ ys) = true := by
  induction xs with
  | nil => rfl
  | cons c cs ih => simp [leadsWith, ih]

/-- Dollar-free replacement strings are substituted literally. -/
theorem getSubstitution_noDollar (m b a xs : List Char)
    (h : ∀ c ∈ xs, c ≠ dollar) : getSubstitution m b a xs = xs := by
  induction xs with
  | nil => rfl
  | cons c rest ih =>
    have hc : (c == dollar) = false := by
      simp [h c (by simp)]
    rw [getSubstitution.eq_def]
    simp only [hc, Bool.false_eq_true, if_false]
    rw [ih (fun x hx => h x (by simp [hx]))]

/-- Replacement fires at an exact pattern occurrence, substituting the
expanded replacement with the consumed prefix as the before-text. -/
theorem replaceFirstGo_hit (c : Char) (cs repl B rest : List Char) :
    replaceFirstGo (c :: cs) repl B ((c :: cs) ++ rest) =
      getSubstitution (c :: cs) B rest repl ++ rest := by
  rw [List.cons_append, replaceFirstGo,
    if_pos (by rw [← List.cons_append]; exact leadsWith_append_self _ _),
    ← List.cons_append, List.drop_left]

/-- Replacing inside a content that is exactly the pattern substitutes the
expanded replacement with empty after-text. -/
theorem replaceFirstGo_self (c : Char) (cs repl B : List Char) :
    replaceFirstGo (c :: cs) repl B (c :: cs) =
      getSubstitution (c :: cs) B [] repl := by
  have h := replaceFirstGo_hit c cs repl B []
  simpa using h

/-- A brace-headed pattern scans past brace-free text, extending the consumed
prefix. -/
theorem replaceFirstGo_append_noLB (k repl xs : List Char)
    (hx : ∀ c ∈ xs, c ≠ lbrace) : ∀ B ys,
    replaceFirstGo (lbrace :: k) repl B (xs ++ ys) =
      xs ++ replaceFirstGo (lbrace :: k) repl (B ++ xs) ys := by
  induction xs with
  | nil => intro B ys; simp
  | cons c cs ih =>
    intro B ys
    have hc : c ≠ lbrace := hx c (by simp)
    have hbeq : (lbrace == c) = false := by
      simp [Ne.symm hc]
    have hl : leadsWith (lbrace :: k) (c :: (cs ++ ys)) = false := by
      simp [leadsWith, hbeq]
    rw [List.cons_append, replaceFirstGo, hl]
    simp only [Bool.false_eq_true, if_false]
    rw [ih (fun c2 hc2 => hx c2 (by simp [hc2])) (B ++ [c]) ys]
    simp [List.append_assoc]

/-- A brace-headed pattern leaves brace-free text unchanged, whatever prefix
has been consumed. -/
theorem replaceFirstGo_noLB_id (k repl B xs : List Char)
    (hx : ∀ c ∈ xs, c ≠ lbrace) :
    replaceFirstGo (lbrace :: k) repl B xs = xs := by
  have h := replaceFirstGo_append_noLB k repl xs hx B []
  simpa [replaceFirstGo] using h

/-- Key comparison under a closing brace: for right-brace-free keys, the
pattern continuation `k}` begins `m}` exactly when `k = m`. -/
theorem leadsWith_key_rbrace (ks ms : List Char)
    (hk : ∀ c ∈ ks, c ≠ rbrace) (hm : ∀ c ∈ ms, c ≠ rbrace) :
    leadsWith (ks ++ [rbrace]) (ms ++ [rbrace]) = (ks == ms) := by
  induction ks generalizing ms with
  | nil =>
    cases ms with
    | nil => rfl
    | cons c ms2 =>
      have hc : c ≠ rbrace := hm c (by simp)
      simp [leadsWith, Ne.symm hc]
  | cons a ks2 ih =>
    cases ms with
    | nil =>
      have hc : a ≠ rbrace := hk a (by simp)
      simp [leadsWith, hc]
    | cons c ms2 =>
      have h1 := ih ms2 (fun x hx => hk x (by simp [hx]))
        (fun x hx => hm x (by simp [hx]))
      simp [leadsWith, h1, List.cons_beq_cons]

/-- Brace-freeness distributes over append. -/
theorem noLB_append (xs ys : List Char) (hx : ∀ c ∈ xs, c ≠ lbrace)
    (hy : ∀ c ∈ ys, c ≠ lbrace) : ∀ c ∈ xs ++ ys, c ≠ lbrace := by
  intro c hc
  rcases List.mem_append.mp hc with h | h
  · exact hx c h
  · exact hy c h

/-- The `reason` placeholder as a character list. -/
def reasonPh : List Char := lbrace :: ("reason".data ++ [rbrace])

/-- Replacing a key other than `reason` in the terminal `reason` placeholder
is a no-op, whatever prefix has been consumed. -/
theorem replaceFirstGo_reason_miss (k repl B : List Char)
    (hk : ∀ c ∈ k, c ≠ rbrace) (hne : k ≠ "reason".data) :
    replaceFirstGo (lbrace :: (k ++ [rbrace])) repl B reasonPh = reasonPh := by
  have h1 : leadsWith (lbrace :: (k ++ [rbrace])) reasonPh = false := by
    have h2 := leadsWith_key_rbrace k "reason".data hk (by decide)
    have h3 : (k == "reason".data) = false := by
      simp [hne]
    rw [reasonPh]
    show (lbrace == lbrace &&
      leadsWith (k ++ [rbrace]) ("reason".data ++ [rbrace])) = false
    rw [h2, h3, Bool.and_false]
  rw [reasonPh] at h1 ⊢
  rw [replaceFirstGo, h1]
  simp only [Bool.false_eq_true, if_false]
  rw [replaceFirstGo_noLB_id _ _ _ _ (by decide)]

/-- Non-scalar entries never change the content: the interpolation loop over
any entry list equals the loop over its scalar entries only. -/
theorem interpolateL_skips_nonscalar (es : List (String × JVal)) :
    ∀ t, interpolateL t es =
      interpolateL t (es.filter (fun kv => (toDisplayString kv.2).isSome)) := by
  induction es with
  | nil => intro t; rfl
  | cons kv rest ih =>
    intro t
    cases hd : toDisplayString kv.2 with
    | none =>
      have hstep : interpolateStep t kv = t := by
        rw [interpolateStep, hd]
      have hfil : ((kv :: rest).filter
          (fun kv => (toDisplayString kv.2).isSome)) =
          rest.filter (fun kv => (toDisplayString kv.2).isSome) := by
        simp [List.filter, hd]
      rw [interpolateL, List.foldl_cons, hstep, hfil]
      exact ih t
    | some s =>
      have hfil : ((kv :: rest).filter
          (fun kv => (toDisplayString kv.2).isSome)) =
          kv :: rest.filter (fun kv => (toDisplayString kv.2).isSome) := by
        simp [List.filter, hd]
      rw [interpolateL, List.foldl_cons, hfil, interpolateL, List.foldl_cons]
      exact ih (interpolateStep t kv)

/-- The interpolation loop leaves a left-brace-free content unchanged,
whatever the remaining entries are. -/
theorem interpolateL_noLB (es : List (String × JVal)) :
    ∀ C, (∀ c ∈ C, c ≠ lbrace) → interpolateL C es = C := by
  induction es with
  | nil => intro C _; rfl
  | cons kv rest ih =>
    intro C hC
    have hstep : interpolateStep C kv = C := by
      cases hd : toDisplayString kv.2 with
      | none => rw [interpolateStep, hd]
      | some s =>
        rw [interpolateStep, hd]
        exact replaceFirstGo_noLB_id _ _ _ _ hC
    rw [interpolateL, List.foldl_cons, hstep]
    exact ih C hC

/-- The substitution the spec predicts for the `reason` placeholder: the
literal string form of the first scalar entry keyed `reason`, if any. -/
def reasonSub (extras : List (String × JVal)) : Option String :=
  (extras.find? (fun kv => kv.1 == "reason" &&
    (toDisplayString kv.2).isSome)).bind (fun kv => toDisplayString kv.2)

/-- Interpolating entries into a content of the form
`X ++ "[lbrace]reason[rbrace]"` with `X` left-brace-free substitutes the
first scalar `reason` entry (if any) for the placeholder and nothing else,
provided keys are right-brace-free and scalar values are left-brace-free and
dollar-free. -/
theorem interpolateL_reason (es : List (String × JVal)) :
    ∀ X, (∀ c ∈ X, c ≠ lbrace) →
    (∀ kv ∈ es, (∀ c ∈ kv.1.data, c ≠ rbrace) ∧
      ∀ s, toDisplayString kv.2 = some s →
        ∀ c ∈ s.data, c ≠ lbrace ∧ c ≠ dollar) →
    interpolateL (X ++ reasonPh) es =
      X ++ (match reasonSub es with
        | some v => v.data
        | none => reasonPh) := by
  induction es with
  | nil =>
    intro X _ _
    rw [show reasonSub [] = none from rfl]
    rfl
  | cons kv rest ih =>
    intro X hX hes
    obtain ⟨hkey, hval⟩ := hes kv (by simp)
    have hrest : ∀ kv2 ∈ rest, (∀ c ∈ kv2.1.data, c ≠ rbrace) ∧
        ∀ s, toDisplayString kv2.2 = some s →
          ∀ c ∈ s.data, c ≠ lbrace ∧ c ≠ dollar :=
      fun kv2 h2 => hes kv2 (by simp [h2])
    cases hd : toDisplayString kv.2 with
    | none =>
      have hstep : interpolateStep (X ++ reasonPh) kv = X ++ reasonPh := by
        rw [interpolateStep, hd]
      have hsub : reasonSub (kv :: rest) = reasonSub rest := by
        rw [reasonSub, List.find?_cons_of_neg, ← reasonSub]
        simp [hd]
      rw [interpolateL, List.foldl_cons, hstep, hsub]
      exact ih X hX hrest
    | some s =>
      by_cases hkr : kv.1 = "reason"
      · have hstep : interpolateStep (X ++ reasonPh) kv = X ++ s.data := by
          rw [interpolateStep, hd, hkr]
          show replaceFirstGo (lbrace :: ("reason".data ++ [rbrace])) s.data []
            (X ++ reasonPh) = X ++ s.data
          rw [replaceFirstGo_append_noLB _ _ _ hX [] reasonPh]
          rw [show reasonPh = lbrace :: ("reason".data ++ [rbrace]) from rfl]
          rw [replaceFirstGo_self lbrace ("reason".data ++ [rbrace]) s.data]
          rw [getSubstitution_noDollar _ _ _ _
            (fun c hc => (hval s hd c hc).2)]
        have hsub : reasonSub (kv :: rest) = some s := by
          rw [reasonSub, List.find?_cons_of_pos]
          · simp [hd]
          · simp [hkr, hd]
        rw [interpolateL, List.foldl_cons, hstep, hsub]
        exact interpolateL_noLB rest (X ++ s.data)
          (noLB_append _ _ hX (fun c hc => (hval s hd c hc).1))
      · have hstep : interpolateStep (X ++ reasonPh) kv = X ++ reasonPh := by
          rw [interpolateStep, hd]
          show replaceFirstGo (lbrace :: (kv.1.data ++ [rbrace])) s.data []
            (X ++ reasonPh) = X ++ reasonPh
          rw [replaceFirstGo_append_noLB _ _ _ hX [] reasonPh]
          rw [replaceFirstGo_reason_miss kv.1.data s.data _ hkey
            (fun h => hkr (strData_inj _ _ h))]
        have hsub : reasonSub (kv :: rest) = reasonSub rest := by
          rw [reasonSub, List.find?_cons_of_neg, ← reasonSub]
          simp [hkr]
        rw [interpolateL, List.foldl_cons, hstep, hsub]
        exact ih X hX hrest

/-- Character lists of concatenated strings concatenate. -/
theorem string_data_append (a b : String) : (a ++ b).data = a.data ++ b.data :=
  rfl

/-- Interpolating the message data into a template of the shape
`P[lbrace]orderId[rbrace]Q1[lbrace]deliveryInfo[rbrace]` (the shape of the
`order_created`, `order_confirmed` and `order_shipped` templates) replaces the
two built-in placeholders with the scalar values and is then inert. -/
theorem interpolate_shapeA (P Q1 : String)
    (hP : ∀ c ∈ P.data, c ≠ lbrace) (hQ1 : ∀ c ∈ Q1.data, c ≠ lbrace)
    (v0 v1 : JVal) (a b : String)
    (h0 : toDisplayString v0 = some a) (h1 : toDisplayString v1 = some b)
    (ha : ∀ c ∈ a.data, c ≠ lbrace ∧ c ≠ dollar)
    (hb : ∀ c ∈ b.data, c ≠ lbrace ∧ c ≠ dollar)
    (extras : List (String × JVal)) :
    List.foldl interpolateStep
      (P.data ++ ((lbrace :: ("orderId".data ++ [rbrace])) ++
        (Q1.data ++ (lbrace :: ("deliveryInfo".data ++ [rbrace])))))
      (("orderId", v0) :: ("deliveryInfo", v1) :: extras) =
    P.data ++ (a.data ++ (Q1.data ++ b.data)) := by
  have haL : ∀ c ∈ a.data, c ≠ lbrace := fun c hc => (ha c hc).1
  have haD : ∀ c ∈ a.data, c ≠ dollar := fun c hc => (ha c hc).2
  have hbL : ∀ c ∈ b.data, c ≠ lbrace := fun c hc => (hb c hc).1
  have hbD : ∀ c ∈ b.data, c ≠ dollar := fun c hc => (hb c hc).2
  rw [List.foldl_cons, List.foldl_cons]
  have s1 : interpolateStep
      (P.data ++ ((lbrace :: ("orderId".data ++ [rbrace])) ++
        (Q1.data ++ (lbrace :: ("deliveryInfo".data ++ [rbrace])))))
      ("orderId", v0) =
      P.data ++ (a.data ++
        (Q1.data ++ (lbrace :: ("deliveryInfo".data ++ [rbrace])))) := by
    rw [interpolateStep, h0]
    show replaceFirstGo (lbrace :: ("orderId".data ++ [rbrace])) a.data []
      (P.data ++ ((lbrace :: ("orderId".data ++ [rbrace])) ++
        (Q1.data ++ (lbrace :: ("deliveryInfo".data ++ [rbrace]))))) = _
    rw [replaceFirstGo_append_noLB _ _ _ hP [] _, replaceFirstGo_hit,
      getSubstitution_noDollar _ _ _ _ haD]
  rw [s1]
  have s2 : interpolateStep
      (P.data ++ (a.data ++
        (Q1.data ++ (lbrace :: ("deliveryInfo".data ++ [rbrace])))))
      ("deliveryInfo", v1) =
      P.data ++ (a.data ++ (Q1.data ++ b.data)) := by
    rw [interpolateStep, h1]
    show replaceFirstGo (lbrace :: ("deliveryInfo".data ++ [rbrace])) b.data []
      (P.data ++ (a.data ++
        (Q1.data ++ (lbrace :: ("deliveryInfo".data ++ [rbrace]))))) = _
    rw [replaceFirstGo_append_noLB _ _ _ hP [] _,
      replaceFirstGo_append_noLB _ _ _ haL _ _,
      replaceFirstGo_append_noLB _ _ _ hQ1 _ _,
      replaceFirstGo_self, getSubstitution_noDollar _ _ _ _ hbD]
  rw [s2]
  exact interpolateL_noLB extras _
    (noLB_append _ _ hP (noLB_append _ _ haL (noLB_append _ _ hQ1 hbL)))

/-- Interpolating the message data into a template of the shape
`P[lbrace]orderId[rbrace]Q` with `Q` brace-free (the `order_delivered`
template) replaces the order id and is then inert. -/
theorem interpolate_shapeB (P Q : String)
    (hP : ∀ c ∈ P.data, c ≠ lbrace) (hQ : ∀ c ∈ Q.data, c ≠ lbrace)
    (v0 v1 : JVal) (a : String)
    (h0 : toDisplayString v0 = some a)
    (ha : ∀ c ∈ a.data, c ≠ lbrace ∧ c ≠ dollar)
    (extras : List (String × JVal)) :
    List.foldl interpolateStep
      (P.data ++ ((lbrace :: ("orderId".data ++ [rbrace])) ++ Q.data))
      (("orderId", v0) :: ("deliveryInfo", v1) :: extras) =
    P.data ++ (a.data ++ Q.data) := by
  have haL : ∀ c ∈ a.data, c ≠ lbrace := fun c hc => (ha c hc).1
  have haD : ∀ c ∈ a.data, c ≠ dollar := fun c hc => (ha c hc).2
  rw [List.foldl_cons, List.foldl_cons]
  have s1 : interpolateStep
      (P.data ++ ((lbrace :: ("orderId".data ++ [rbrace])) ++ Q.data))
      ("orderId", v0) = P.data ++ (a.data ++ Q.data) := by
    rw [interpolateStep, h0]
    show replaceFirstGo (lbrace :: ("orderId".data ++ [rbrace])) a.data []
      (P.data ++ ((lbrace :: ("orderId".data ++ [rbrace])) ++ Q.data)) = _
    rw [replaceFirstGo_append_noLB _ _ _ hP [] _, replaceFirstGo_hit,
      getSubstitution_noDollar _ _ _ _ haD]
  rw [s1]
  have hfree : ∀ c ∈ P.data ++ (a.data ++ Q.data), c ≠ lbrace :=
    noLB_append _ _ hP (noLB_append _ _ haL hQ)
  have s2 : interpolateStep (P.data ++ (a.data ++ Q.data))
      ("deliveryInfo", v1) = P.data ++ (a.data ++ Q.data) := by
    cases hd : toDisplayString v1 with
    | none => rw [interpolateStep, hd]
    | some s =>
      rw [interpolateStep, hd]
      exact replaceFirstGo_noLB_id _ _ _ _ hfree
  rw [s2]
  exact interpolateL_noLB extras _ hfree

/-- Interpolating the message data into a template of the shape
`P[lbrace]orderId[rbrace]Q1[lbrace]reason[rbrace]` (the `order_cancelled` and
`order_refunded` templates) replaces the order id, skips the absent
`deliveryInfo` placeholder, and substitutes the first scalar `reason` entry
of the context bag, if any. -/
theorem interpolate_shapeC (P Q1 : String)
    (hP : ∀ c ∈ P.data, c ≠ lbrace) (hQ1 : ∀ c ∈ Q1.data, c ≠ lbrace)
    (v0 v1 : JVal) (a b : String)
    (h0 : toDisplayString v0 = some a) (h1 : toDisplayString v1 = some b)
    (ha : ∀ c ∈ a.data, c ≠ lbrace ∧ c ≠ dollar)
    (extras : List (String × JVal))
    (hex : ∀ kv ∈ extras, (∀ c ∈ kv.1.data, c ≠ rbrace) ∧
      ∀ s, toDisplayString kv.2 = some s →
        ∀ c ∈ s.data, c ≠ lbrace ∧ c ≠ dollar) :
    List.foldl interpolateStep
      (P.data ++ ((lbrace :: ("orderId".data ++ [rbrace])) ++
        (Q1.data ++ reasonPh)))
      (("orderId", v0) :: ("deliveryInfo", v1) :: extras) =
    (P.data ++ (a.data ++ Q1.data)) ++
      (match reasonSub extras with
        | some v => v.data
        | none => reasonPh) := by
  have haL : ∀ c ∈ a.data, c ≠ lbrace := fun c hc => (ha c hc).1
  have haD : ∀ c ∈ a.data, c ≠ dollar := fun c hc => (ha c hc).2
  rw [List.foldl_cons, List.foldl_cons]
  have s1 : interpolateStep
      (P.data ++ ((lbrace :: ("orderId".data ++ [rbrace])) ++
        (Q1.data ++ reasonPh)))
      ("orderId", v0) =
      P.data ++ (a.data ++ (Q1.data ++ reasonPh)) := by
    rw [interpolateStep, h0]
    show replaceFirstGo (lbrace :: ("orderId".data ++ [rbrace])) a.data []
      (P.data ++ ((lbrace :: ("orderId".data ++ [rbrace])) ++
        (Q1.data ++ reasonPh))) = _
    rw [replaceFirstGo_append_noLB _ _ _ hP [] _, replaceFirstGo_hit,
      getSubstitution_noDollar _ _ _ _ haD]
  rw [s1]
  have s2 : interpolateStep (P.data ++ (a.data ++ (Q1.data ++ reasonPh)))
      ("deliveryInfo", v1) =
      P.data ++ (a.data ++ (Q1.data ++ reasonPh)) := by
    rw [interpolateStep, h1]
    show replaceFirstGo (lbrace :: ("deliveryInfo".data ++ [rbrace])) b.data []
      (P.data ++ (a.data ++ (Q1.data ++ reasonPh))) = _
    rw [replaceFirstGo_append_noLB _ _ _ hP [] _,
      replaceFirstGo_append_noLB _ _ _ haL _ _,
      replaceFirstGo_append_noLB _ _ _ hQ1 _ _,
      replaceFirstGo_reason_miss "deliveryInfo".data b.data _ (by decide)
        (by decide)]
  rw [s2]
  have hX : ∀ c ∈ P.data ++ (a.data ++ Q1.data), c ≠ lbrace :=
    noLB_append _ _ hP (noLB_append _ _ haL hQ1)
  have h3 := interpolateL_reason extras (P.data ++ (a.data ++ Q1.data)) hX hex
  rw [← h3, interpolateL]
  rw [List.append_assoc, List.append_assoc]

/-- Modelled from the spec (claim side): the content predicted by "interpolate
the template string's named placeholders by literal substitution" for each
registered template — `orderId` and `deliveryInfo` are replaced by their
values, and the `reason` placeholder of the cancellation/refund templates by
the first scalar `reason` entry of the context bag (staying in place when the
bag supplies none). -/
def expectedContent (type : String) (oid dinfo : String)
    (extras : List (String × JVal)) : String :=
  if type == "order_created" then
    "Your order #" ++ oid ++
      " has been received and is being processed. " ++ dinfo
  else if type == "order_confirmed" then
    "Good news! Your order #" ++ oid ++ " has been confirmed. " ++ dinfo
  else if type == "order_shipped" then
    "Your order #" ++ oid ++ " is on its way to you! " ++ dinfo
  else if type == "order_delivered" then
    "Your order #" ++ oid ++ " has been delivered. Enjoy!"
  else if type == "order_cancelled" then
    "Your order #" ++ oid ++ " has been cancelled. " ++
      (reasonSub extras).getD "\x7breason\x7d"
  else
    "Your refund for order #" ++ oid ++ " has been processed. " ++
      (reasonSub extras).getD "\x7breason\x7d"

/-- C9 (amended): template interpolation under the brace- and dollar-free
proviso — for every registered notification type, interpolating the message
data (built-in `orderId` and `deliveryInfo` scalars followed by the
context-bag entries) replaces each named placeholder whose key maps to a
string or number value by that value's literal string form, provided those
string forms contain no left brace and no dollar and the bag keys contain no
right brace; and, with no proviso at all, context entries of any other type
are skipped and never stringified. -/
theorem C9_template_interpolation_amended (type : String)
    (tpl : NotificationTemplate)
    (htpl : NOTIFICATION_TEMPLATES.lookup type = some tpl)
    (v0 v1 : JVal) (a b : String)
    (h0 : toDisplayString v0 = some a) (h1 : toDisplayString v1 = some b)
    (ha : ∀ c ∈ a.data, c ≠ lbrace ∧ c ≠ dollar)
    (hb : ∀ c ∈ b.data, c ≠ lbrace ∧ c ≠ dollar)
    (extras : List (String × JVal))
    (hex : ∀ kv ∈ extras, (∀ c ∈ kv.1.data, c ≠ rbrace) ∧
      ∀ s, toDisplayString kv.2 = some s →
        ∀ c ∈ s.data, c ≠ lbrace ∧ c ≠ dollar) :
    interpolate tpl.template
        (("orderId", v0) :: ("deliveryInfo", v1) :: extras) =
      expectedContent type a b extras ∧
    (∀ t es, interpolate t es =
      interpolate t (es.filter (fun kv => (toDisplayString kv.2).isSome))) := by
  constructor
  · by_cases t1 : type = "order_created"
    · subst t1
      injection htpl with h
      subst h
      show String.mk (List.foldl interpolateStep
        ("Your order #{orderId} has been received and is being processed. {deliveryInfo}").data
        (("orderId", v0) :: ("deliveryInfo", v1) :: extras)) = _
      rw [show ("Your order #{orderId} has been received and is being processed. {deliveryInfo}").data =
        "Your order #".data ++ ((lbrace :: ("orderId".data ++ [rbrace])) ++
          (" has been received and is being processed. ".data ++
            (lbrace :: ("deliveryInfo".data ++ [rbrace])))) from rfl]
      rw [interpolate_shapeA "Your order #"
        " has been received and is being processed. " (by decide) (by decide)
        v0 v1 a b h0 h1 ha hb extras]
      apply strData_inj
      simp [expectedContent, string_data_append, List.append_assoc]
    · by_cases t2 : type = "order_confirmed"
      · subst t2
        injection htpl with h
        subst h
        show String.mk (List.foldl interpolateStep
          ("Good news! Your order #{orderId} has been confirmed. {deliveryInfo}").data
          (("orderId", v0) :: ("deliveryInfo", v1) :: extras)) = _
        rw [show ("Good news! Your order #{orderId} has been confirmed. {deliveryInfo}").data =
          "Good news! Your order #".data ++
            ((lbrace :: ("orderId".data ++ [rbrace])) ++
              (" has been confirmed. ".data ++
                (lbrace :: ("deliveryInfo".data ++ [rbrace])))) from rfl]
        rw [interpolate_shapeA "Good news! Your order #"
          " has been confirmed. " (by decide) (by decide)
          v0 v1 a b h0 h1 ha hb extras]
        apply strData_inj
        simp [expectedContent, string_data_append, List.append_assoc]
      · by_cases t3 : type = "order_shipped"
        · subst t3
          injection htpl with h
          subst h
          show String.mk (List.foldl interpolateStep
            ("Your order #{orderId} is on its way to you! {deliveryInfo}").data
            (("orderId", v0) :: ("deliveryInfo", v1) :: extras)) = _
          rw [show ("Your order #{orderId} is on its way to you! {deliveryInfo}").data =
            "Your order #".data ++ ((lbrace :: ("orderId".data ++ [rbrace])) ++
              (" is on its way to you! ".data ++
                (lbrace :: ("deliveryInfo".data ++ [rbrace])))) from rfl]
          rw [interpolate_shapeA "Your order #" " is on its way to you! "
            (by decide) (by decide) v0 v1 a b h0 h1 ha hb extras]
          apply strData_inj
          simp [expectedContent, string_data_append, List.append_assoc]
        · by_cases t4 : type = "order_delivered"
          · subst t4
            injection htpl with h
            subst h
            show String.mk (List.foldl interpolateStep
              ("Your order #{orderId} has been delivered. Enjoy!").data
              (("orderId", v0) :: ("deliveryInfo", v1) :: extras)) = _
            rw [show ("Your order #{orderId} has been delivered. Enjoy!").data =
              "Your order #".data ++
                ((lbrace :: ("orderId".data ++ [rbrace])) ++
                  " has been delivered. Enjoy!".data) from rfl]
            rw [interpolate_shapeB "Your order #" " has been delivered. Enjoy!"
              (by decide) (by decide) v0 v1 a h0 ha extras]
            apply strData_inj
            simp [expectedContent, string_data_append, List.append_assoc, t1]
          · by_cases t5 : type = "order_cancelled"
            · subst t5
              injection htpl with h
              subst h
              show String.mk (List.foldl interpolateStep
                ("Your order #{orderId} has been cancelled. {reason}").data
                (("orderId", v0) :: ("deliveryInfo", v1) :: extras)) = _
              rw [show ("Your order #{orderId} has been cancelled. {reason}").data =
                "Your order #".data ++
                  ((lbrace :: ("orderId".data ++ [rbrace])) ++
                    (" has been cancelled. ".data ++ reasonPh)) from rfl]
              rw [interpolate_shapeC "Your order #" " has been cancelled. "
                (by decide) (by decide) v0 v1 a b h0 h1 ha extras hex]
              apply strData_inj
              cases hr : reasonSub extras with
              | some v =>
                simp [expectedContent, hr, string_data_append,
                  List.append_assoc]
              | none =>
                have hrp : (("\x7breason\x7d" : String)).data = reasonPh := rfl
                simp [expectedContent, hr, string_data_append,
                  List.append_assoc, hrp]
                decide
            · by_cases t6 : type = "order_refunded"
              · subst t6
                injection htpl with h
                subst h
                show String.mk (List.foldl interpolateStep
                  ("Your refund for order #{orderId} has been processed. {reason}").data
                  (("orderId", v0) :: ("deliveryInfo", v1) :: extras)) = _
                rw [show ("Your refund for order #{orderId} has been processed. {reason}").data =
                  "Your refund for order #".data ++
                    ((lbrace :: ("orderId".data ++ [rbrace])) ++
                      (" has been processed. ".data ++ reasonPh)) from rfl]
                rw [interpolate_shapeC "Your refund for order #"
                  " has been processed. "
                  (by decide) (by decide) v0 v1 a b h0 h1 ha extras hex]
                apply strData_inj
                cases hr : reasonSub extras with
                | some v =>
                  simp [expectedContent, hr, string_data_append,
                    List.append_assoc, t1, t2, t3, t4, t5]
                | none =>
                  have hrp : (("\x7breason\x7d" : String)).data = reasonPh := rfl
                  simp [expectedContent, hr, string_data_append,
                    List.append_assoc, t1, t2, t3, t4, t5, hrp]
                  decide
              · exfalso
                have b1 : (type == "order_created") = false := by simp [t1]
                have b2 : (type == "order_confirmed") = false := by simp [t2]
                have b3 : (type == "order_shipped") = false := by simp [t3]
                have b4 : (type == "order_delivered") = false := by simp [t4]
                have b5 : (type == "order_cancelled") = false := by simp [t5]
                have b6 : (type == "order_refunded") = false := by simp [t6]
                simp [NOTIFICATION_TEMPLATES, List.lookup,
                  b1, b2, b3, b4, b5, b6] at htpl
  · intro t es
    unfold interpolate
    rw [interpolateL_skips_nonscalar]

/-- C9 (counterexample): the claim fails on the code as stated.  For the
registered `order_cancelled` template and a context bag that overrides
`orderId` with the scalar string `[lbrace]reason[rbrace]`, the JS
first-occurrence replacement substitutes the `reason` value into the text
injected by the `orderId` substitution, leaving the template's own `reason`
placeholder unreplaced even though its key maps to the scalar `"X"`; literal
placeholder substitution (`expectedContent`) predicts a different content.
Dollars break the claim too: `String.replace` expands replacement patterns,
so the scalar value `"$$"` (brace-free) is rendered as the single character
`"$"` instead of its literal string form. -/
theorem C9_template_interpolation_counterexample :
    interpolate "Your order #{orderId} has been cancelled. {reason}"
      [("orderId", JVal.str "\x7breason\x7d"),
       ("deliveryInfo", JVal.str "D"), ("reason", JVal.str "X")] =
      "Your order #X has been cancelled. \x7breason\x7d" ∧
    expectedContent "order_cancelled" "\x7breason\x7d" "D"
      [("reason", JVal.str "X")] =
      "Your order #\x7breason\x7d has been cancelled. X" ∧
    interpolate "Your order #{orderId} has been cancelled. {reason}"
      [("orderId", JVal.str "\x7breason\x7d"),
       ("deliveryInfo", JVal.str "D"), ("reason", JVal.str "X")] ≠
      expectedContent "order_cancelled" "\x7breason\x7d" "D"
        [("reason", JVal.str "X")] ∧
    interpolate "Your order #{orderId} has been cancelled. {reason}"
      [("orderId", JVal.num 7), ("deliveryInfo", JVal.str "D"),
       ("reason", JVal.str "$$")] =
      "Your order #7 has been cancelled. $" ∧
    expectedContent "order_cancelled" "7" "D" [("reason", JVal.str "$$")] =
      "Your order #7 has been cancelled. $$" ∧
    interpolate "Your order #{orderId} has been cancelled. {reason}"
      [("orderId", JVal.num 7), ("deliveryInfo", JVal.str "D"),
       ("reason", JVal.str "$$")] ≠
      expectedContent "order_cancelled" "7" "D" [("reason", JVal.str "$$")] :=
  ⟨rfl, rfl, by decide, rfl, rfl, by decide⟩

/-- Witness for the amended C9: a scalar order id and delivery-info string
are substituted into the `order_created` template while non-scalar bag
entries are skipped, and a scalar `reason` entry is substituted into the
`order_cancelled` template. -/
theorem C9_template_interpolation_amended_witness :
    interpolate
      "Your order #{orderId} has been received and is being processed. {deliveryInfo}"
      [("orderId", JVal.num 42),
       ("deliveryInfo", JVal.str "Scheduled for Sunday"),
       ("slotAssignmentMethod", JVal.str "fallback"),
       ("deliverySlot", JVal.obj)] =
      "Your order #42 has been received and is being processed. Scheduled for Sunday" ∧
    interpolate "Your order #{orderId} has been cancelled. {reason}"
      [("orderId", JVal.num 7), ("deliveryInfo", JVal.str "D"),
       ("reason", JVal.str "address unreachable"), ("extra", JVal.arr)] =
      "Your order #7 has been cancelled. address unreachable" := by
  constructor
  · have h := C9_template_interpolation_amended "order_created"
      { title := "Order Confirmation",
        template := "Your order #{orderId} has been received and is being processed. {deliveryInfo}" }
      rfl (JVal.num 42) (JVal.str "Scheduled for Sunday")
      "42" "Scheduled for Sunday" rfl rfl (by decide) (by decide)
      [("slotAssignmentMethod", JVal.str "fallback"),
       ("deliverySlot", JVal.obj)]
      (by
        intro kv hkv
        simp only [List.mem_cons, List.not_mem_nil, or_false] at hkv
        rcases hkv with rfl | rfl
        · refine ⟨by decide, ?_⟩
          intro s hs
          injection hs with h2
          subst h2
          decide
        · exact ⟨by decide, fun s hs => Option.noConfusion hs⟩)
    exact h.1
  · have h := C9_template_interpolation_amended "order_cancelled"
      { title := "Order Cancelled",
        template := "Your order #{orderId} has been cancelled. {reason}" }
      rfl (JVal.num 7) (JVal.str "D") "7" "D" rfl rfl
      (by decide) (by decide)
      [("reason", JVal.str "address unreachable"), ("extra", JVal.arr)]
      (by
        intro kv hkv
        simp only [List.mem_cons, List.not_mem_nil, or_false] at hkv
        rcases hkv with rfl | rfl
        · refine ⟨by decide, ?_⟩
          intro s hs
          injection hs with h2
          subst h2
          decide
        · exact ⟨by decide, fun s hs => Option.noConfusion hs⟩)
    exact h.1
